import Mathlib

/-!
# sig_motion_hw_int.c : significant-motion example for the BMI270 driver

A shallow embedding of `src/bmi270_examples/sig_motion_hw_int/sig_motion_hw_int.c`.

* The sensor driver (`bmi2_*`, `bmi270_*`) and the board runtime (`coines_*`) are external:
  an `Env` fixes what every one of their calls answers, and `main` records each call it makes
  in a trace of `Event`s.
* The values of the header constants the file uses are not part of the file; they are the
  fields of a `Header`, and every theorem holds for every header (only `BMI2_OK`, whose value
  the specification gives, is fixed).
* The poll loop may run forever.  `Env.poll` lists what happens in the successive iterations
  of the loop; when the list is used up and the loop has not exited the run is still inside
  the loop and `Run.ret = none`.
* `interrupt_callback` runs asynchronously.  Each iteration lists the invocations of the
  callback in each window between two accesses of the main flow to `interrupt_status`
  (reads and writes of the `volatile uint8_t` flag are atomic).
-/

namespace SigMotionHwInt

/-! ## Machine integers and header constants -/

/-- An `int8_t` value, given by its 8-bit two-complement pattern. -/
abbrev int8_t := Fin 256

/-- Conversion of an `int8_t` to `int`, as done by `return rslt;` in `int main(void)`. -/
def sign_extend (x : int8_t) : Int :=
  if x.val < 128 then (x.val : Int) else (x.val : Int) - 256

/-- Modelled from the spec: the success status `BMI2_OK` of the driver, a constant of
`bmi2_defs.h`, which is not in the sources; the spec says that 0 signals success. -/
def BMI2_OK : int8_t := 0

/-- APP20 Board number. -/
def BOARD_MCU_APP20 : Nat := 0x03

/-- APP30 Board number. -/
def BOARD_MCU_APP30 : Nat := 0x05

/-- The constants of `bmi270.h`, `bmi2_defs.h` and `coines.h` used by the file, and
whether the preprocessor symbol `MCU_APP20` is defined. Their values are parameters. -/
structure Header where
  BMI2_I2C_INTF : Nat
  BMI2_ACCEL : Nat
  BMI2_SIG_MOTION : Nat
  BMI2_INT1 : Nat
  BMI2_INT_INPUT_DISABLE : Nat
  BMI2_INT_ACTIVE_HIGH : Nat
  BMI2_INT_PUSH_PULL : Nat
  BMI2_INT_OUTPUT_ENABLE : Nat
  BMI2_INT_NON_LATCH : Nat
  BMI270_SIG_MOT_STATUS_MASK : Nat
  COINES_SUCCESS : Int
  COINES_SHUTTLE_PIN_21 : Nat
  COINES_MINI_SHUTTLE_PIN_1_7 : Nat
  COINES_PIN_INTERRUPT_FALLING_EDGE : Nat
  MCU_APP20 : Bool
deriving DecidableEq, Repr

/-! ## Data -/

/-- Modelled from the spec: `struct bmi2_int_pin_cfg`, declared in `bmi2_defs.h`, which is
not in the sources. The spec describes the pin settings as polarity, drive mode and enable
flags; these are the four fields of `pin_cfg[0]` that `main` assigns. -/
structure bmi2_int_pin_cfg where
  lvl : Nat
  od : Nat
  output_en : Nat
  input_en : Nat
deriving DecidableEq, Repr

/-- Modelled from the spec: `struct bmi2_int_pin_config`, declared in `bmi2_defs.h`, which
is not in the sources: the pin type, the latch mode and the settings of the two interrupt
pins; `pin_cfg.1` is `pin_cfg[0]` and `pin_cfg.2` is `pin_cfg[1]`. -/
structure bmi2_int_pin_config where
  pin_type : Nat
  int_latch : Nat
  pin_cfg : bmi2_int_pin_cfg × bmi2_int_pin_cfg
deriving DecidableEq, Repr

/-- The text of the first `printf` of `main`. -/
def MSG_MOVE : String := "Move the board for 5 secs in any direction\n"

/-- The text of the `printf` inside the poll loop. -/
def MSG_SIG_MOTION : String := "Significant motion interrupt is generated\n"

/-- What `main` and the interrupt service routine do, in the order they do it: the calls to
the external collaborators (with their arguments and, for those that return one, the value
they returned), the accesses of the main flow to `interrupt_status`, and the runs of
`interrupt_callback`. The device handle `&bmi2_dev` is left out of the arguments, and so is
the callback passed to `coines_attach_interrupt`, which is always `interrupt_callback`. The
call of `bmi2_get_int_status` is two events, so that the callback can run in between. -/
inductive Event where
  | bmi2_interface_init (intf : Nat) (rslt : int8_t)
  | bmi270_init (rslt : int8_t)
  | bmi2_get_int_pin_config (pin_config : bmi2_int_pin_config) (rslt : int8_t)
  | bmi270_sensor_enable (sens_list : List Nat) (n_sens : Nat) (rslt : int8_t)
  | bmi270_get_sensor_config (type : Nat) (n_sens : Nat) (rslt : int8_t)
  | bmi2_set_int_pin_config (pin_config : bmi2_int_pin_config) (rslt : int8_t)
  | bmi270_map_feat_int (type : Nat) (hw_int_pin : Nat) (n_sens : Nat) (rslt : int8_t)
  | bmi2_get_int_status_call
  | bmi2_get_int_status_ret (int_status : Nat) (rslt : int8_t)
  | bmi2_error_codes_print_result (rslt : int8_t)
  | coines_get_board_info (board : Nat) (result : Int)
  | coines_attach_interrupt (pin : Nat) (mode : Nat)
  | printf (msg : String)
  | read_interrupt_status (v : Nat)
  | write_interrupt_status (v : Nat)
  | interrupt_callback (param1 : Nat) (param2 : Nat)
  | bmi2_coines_deinit
deriving DecidableEq, Repr

/-- What happens in one iteration of the poll loop: the invocations of `interrupt_callback`
(each with its two parameters) in every window of the iteration, and the answer of
`bmi2_get_int_status` if that iteration calls it. -/
structure IterEnv where
  /-- Invocations of the callback before the flag is tested. -/
  isr_before_test : List (Nat × Nat)
  /-- Invocations between the test and the write `interrupt_status = 0`. -/
  isr_before_clear : List (Nat × Nat)
  /-- Invocations between the write `interrupt_status = 0` and the call of the query. -/
  isr_before_query : List (Nat × Nat)
  /-- Invocations while `bmi2_get_int_status` runs. -/
  isr_during_query : List (Nat × Nat)
  /-- Value of `int_status` after `bmi2_get_int_status`. -/
  int_status : Nat
  /-- Status returned by `bmi2_get_int_status`. -/
  get_int_status_rslt : int8_t
  /-- Invocations in the rest of the iteration, up to the test of the loop condition. -/
  isr_after : List (Nat × Nat)
deriving DecidableEq, Repr

/-- The answers of the external collaborators on one run. -/
structure Env where
  interface_init_rslt : int8_t
  bmi270_init_rslt : int8_t
  /-- Value of `pin_config` after `bmi2_get_int_pin_config`. -/
  pin_config : bmi2_int_pin_config
  get_int_pin_config_rslt : int8_t
  sensor_enable_rslt : int8_t
  get_sensor_config_rslt : int8_t
  set_int_pin_config_rslt : int8_t
  map_feat_int_rslt : int8_t
  /-- The field `board_info.board` filled in by `coines_get_board_info`. -/
  board_info_board : Nat
  /-- Value returned by `coines_get_board_info`. -/
  board_info_result : Int
  /-- The successive iterations of the poll loop. -/
  poll : List IterEnv
deriving DecidableEq, Repr

/-- The variables of `main` that the poll loop reads and writes, with the shared flag. -/
structure LoopState where
  interrupt_status : Nat
  rslt : int8_t
  int_status : Nat
deriving DecidableEq, Repr

/-- How far the poll loop got: still inside it, at the start of an iteration, or left. -/
inductive LoopOut where
  | running (st : LoopState)
  | exited (st : LoopState)
deriving DecidableEq, Repr

/-- One iteration of the body of the `do ... while`. -/
structure IterRun where
  trace : List Event
  st : LoopState
  /-- The body left the loop through `break`. -/
  brk : Bool
deriving DecidableEq, Repr

/-- A run of the poll loop. -/
structure LoopRun where
  trace : List Event
  out : LoopOut
deriving DecidableEq, Repr

/-- A run of `main`: the trace, and the value returned (`none` while in the poll loop). -/
structure Run where
  trace : List Event
  ret : Option Int
deriving DecidableEq, Repr

/-! ## The program -/

/-- Initial value of `static volatile uint8_t interrupt_status`. -/
def interrupt_status_init : Nat := 0

/-- The function `interrupt_callback`: the new value of `interrupt_status`. -/
def interrupt_callback (_param1 _param2 : Nat) (_interrupt_status : Nat) : Nat := 1

/-- The flag after the given invocations of the callback. -/
def run_isr (calls : List (Nat × Nat)) (interrupt_status : Nat) : Nat :=
  calls.foldl (fun flag p => interrupt_callback p.1 p.2 flag) interrupt_status

/-- The events of the given invocations of the callback. -/
def isr_events (calls : List (Nat × Nat)) : List Event :=
  calls.map (fun p => Event.interrupt_callback p.1 p.2)

/-- The function `get_board_info`: the value of `*board` when it returns. -/
def get_board_info (h : Header) (env : Env) (board : Nat) : Nat :=
  let result := env.board_info_result
  if result = h.COINES_SUCCESS then env.board_info_board % 256 else board

/-- The body of the `do ... while` loop of `main`, lines 151 to 165. -/
def loop_body (h : Header) (st : LoopState) (it : IterEnv) : IterRun :=
  let flag := run_isr it.isr_before_test st.interrupt_status
  let tr := isr_events it.isr_before_test ++ [Event.read_interrupt_status flag]
  if flag = 1 then
    let _flag := run_isr it.isr_before_clear flag
    let tr := tr ++ isr_events it.isr_before_clear
    let flag : Nat := 0
    let tr := tr ++ [Event.write_interrupt_status 0]
    let flag := run_isr it.isr_before_query flag
    let tr := tr ++ isr_events it.isr_before_query ++ [Event.bmi2_get_int_status_call]
    let flag := run_isr it.isr_during_query flag
    let rslt := it.get_int_status_rslt
    let int_status := it.int_status % 65536
    let tr := tr ++ isr_events it.isr_during_query ++
      [Event.bmi2_get_int_status_ret int_status rslt, Event.bmi2_error_codes_print_result rslt]
    if int_status &&& h.BMI270_SIG_MOT_STATUS_MASK ≠ 0 then
      ⟨tr ++ [Event.printf MSG_SIG_MOTION], ⟨flag, rslt, int_status⟩, true⟩
    else
      let flag := run_isr it.isr_after flag
      ⟨tr ++ isr_events it.isr_after, ⟨flag, rslt, int_status⟩, false⟩
  else
    let flag := run_isr it.isr_after flag
    ⟨tr ++ isr_events it.isr_after, ⟨flag, st.rslt, st.int_status⟩, false⟩

/-- The `do ... while (rslt == BMI2_OK)` loop of `main`, run on the given iterations. -/
def poll_loop (h : Header) (st : LoopState) : List IterEnv → LoopRun
  | [] => ⟨[], LoopOut.running st⟩
  | it :: rest =>
    let b := loop_body h st it
    if b.brk then ⟨b.trace, LoopOut.exited b.st⟩
    else if b.st.rslt = BMI2_OK then
      let r := poll_loop h b.st rest
      ⟨b.trace ++ r.trace, r.out⟩
    else ⟨b.trace, LoopOut.exited b.st⟩

/-- The end of `main`, lines 171 to 173. -/
def main_exit (tr : List Event) (rslt : int8_t) : Run :=
  ⟨tr ++ [Event.bmi2_coines_deinit], some (sign_extend rslt)⟩

/-- The function `main`. -/
def main (h : Header) (env : Env) : Run :=
  let sens_list : List Nat := [h.BMI2_ACCEL, h.BMI2_SIG_MOTION]
  let int_status : Nat := 0
  let board : Nat := 0
  let sens_int : Nat × Nat := (h.BMI2_SIG_MOTION, h.BMI2_INT1)
  let rslt := env.interface_init_rslt
  let tr := [Event.bmi2_interface_init h.BMI2_I2C_INTF rslt,
    Event.bmi2_error_codes_print_result rslt]
  let rslt := env.bmi270_init_rslt
  let tr := tr ++ [Event.bmi270_init rslt, Event.bmi2_error_codes_print_result rslt]
  let rslt := env.get_int_pin_config_rslt
  let pin_config := env.pin_config
  let tr := tr ++ [Event.bmi2_get_int_pin_config pin_config rslt,
    Event.bmi2_error_codes_print_result rslt]
  if rslt = BMI2_OK then
    let rslt := env.sensor_enable_rslt
    let tr := tr ++ [Event.bmi270_sensor_enable sens_list 2 rslt,
      Event.bmi2_error_codes_print_result rslt]
    let config_type := h.BMI2_SIG_MOTION
    if rslt = BMI2_OK then
      let rslt := env.get_sensor_config_rslt
      let tr := tr ++ [Event.bmi270_get_sensor_config config_type 1 rslt,
        Event.bmi2_error_codes_print_result rslt]
      let pin_config := { pin_config with pin_type := h.BMI2_INT1 }
      let pin_config := { pin_config with
        pin_cfg := ({ pin_config.pin_cfg.1 with input_en := h.BMI2_INT_INPUT_DISABLE },
          pin_config.pin_cfg.2) }
      let pin_config := { pin_config with
        pin_cfg := ({ pin_config.pin_cfg.1 with lvl := h.BMI2_INT_ACTIVE_HIGH },
          pin_config.pin_cfg.2) }
      let pin_config := { pin_config with
        pin_cfg := ({ pin_config.pin_cfg.1 with od := h.BMI2_INT_PUSH_PULL },
          pin_config.pin_cfg.2) }
      let pin_config := { pin_config with
        pin_cfg := ({ pin_config.pin_cfg.1 with output_en := h.BMI2_INT_OUTPUT_ENABLE },
          pin_config.pin_cfg.2) }
      let pin_config := { pin_config with int_latch := h.BMI2_INT_NON_LATCH }
      let rslt := env.set_int_pin_config_rslt
      let tr := tr ++ [Event.bmi2_set_int_pin_config pin_config rslt,
        Event.bmi2_error_codes_print_result rslt]
      if rslt = BMI2_OK then
        let rslt := env.map_feat_int_rslt
        let tr := tr ++ [Event.bmi270_map_feat_int sens_int.1 sens_int.2 1 rslt,
          Event.bmi2_error_codes_print_result rslt]
        let tr := tr ++ [Event.coines_get_board_info env.board_info_board env.board_info_result]
        let board := get_board_info h env board
        let tr :=
          if board = BOARD_MCU_APP20 then
            tr ++ [Event.coines_attach_interrupt h.COINES_SHUTTLE_PIN_21
              h.COINES_PIN_INTERRUPT_FALLING_EDGE]
          else if h.MCU_APP20 = false ∧ board = BOARD_MCU_APP30 then
            tr ++ [Event.coines_attach_interrupt h.COINES_MINI_SHUTTLE_PIN_1_7
              h.COINES_PIN_INTERRUPT_FALLING_EDGE]
          else tr
        let tr := tr ++ [Event.printf MSG_MOVE]
        let r := poll_loop h ⟨interrupt_status_init, rslt, int_status⟩ env.poll
        match r.out with
        | LoopOut.running _ => ⟨tr ++ r.trace, none⟩
        | LoopOut.exited st => main_exit (tr ++ r.trace) st.rslt
      else main_exit tr rslt
    else main_exit tr rslt
  else main_exit tr rslt

/-! ## Vocabulary of the properties -/

/-- The status-returning driver calls of the setup part of `main`, in program order. -/
inductive SetupCall where
  | interface_init
  | bmi270_init
  | get_int_pin_config
  | sensor_enable
  | get_sensor_config
  | set_int_pin_config
  | map_feat_int
deriving DecidableEq, Repr

/-- Position of a setup call in the program text. -/
def SetupCall.order : SetupCall → Nat
  | interface_init => 0
  | bmi270_init => 1
  | get_int_pin_config => 2
  | sensor_enable => 3
  | get_sensor_config => 4
  | set_int_pin_config => 5
  | map_feat_int => 6

/-- The status that the environment assigns to a setup call. -/
def SetupCall.status (env : Env) : SetupCall → int8_t
  | interface_init => env.interface_init_rslt
  | bmi270_init => env.bmi270_init_rslt
  | get_int_pin_config => env.get_int_pin_config_rslt
  | sensor_enable => env.sensor_enable_rslt
  | get_sensor_config => env.get_sensor_config_rslt
  | set_int_pin_config => env.set_int_pin_config_rslt
  | map_feat_int => env.map_feat_int_rslt

/-- The event is a call of the given setup function. -/
def Event.isCall : SetupCall → Event → Bool
  | SetupCall.interface_init, Event.bmi2_interface_init _ _ => true
  | SetupCall.bmi270_init, Event.bmi270_init _ => true
  | SetupCall.get_int_pin_config, Event.bmi2_get_int_pin_config _ _ => true
  | SetupCall.sensor_enable, Event.bmi270_sensor_enable _ _ _ => true
  | SetupCall.get_sensor_config, Event.bmi270_get_sensor_config _ _ _ => true
  | SetupCall.set_int_pin_config, Event.bmi2_set_int_pin_config _ _ => true
  | SetupCall.map_feat_int, Event.bmi270_map_feat_int _ _ _ _ => true
  | _, _ => false

/-- The setup function is called somewhere in the trace. -/
def called (c : SetupCall) (tr : List Event) : Bool := tr.any (Event.isCall c)

/-- The event is a call of `coines_attach_interrupt`. -/
def Event.isAttach : Event → Bool
  | Event.coines_attach_interrupt _ _ => true
  | _ => false

/-- The event is a test of the flag by the poll loop. -/
def Event.isFlagRead : Event → Bool
  | Event.read_interrupt_status _ => true
  | _ => false

/-- The event is a write of the flag by the main flow. -/
def Event.isFlagWrite : Event → Bool
  | Event.write_interrupt_status _ => true
  | _ => false

/-- The event is a run of `interrupt_callback`. -/
def Event.isCallback : Event → Bool
  | Event.interrupt_callback _ _ => true
  | _ => false

/-- The event is a call of `get_board_info` (seen through `coines_get_board_info`). -/
def Event.isBoardInfo : Event → Bool
  | Event.coines_get_board_info _ _ => true
  | _ => false

/-- The status returned by the event, when it is a status-returning call of the sensor
driver (`bmi2_*` and `bmi270_*` functions returning `int8_t`). -/
def Event.status? : Event → Option int8_t
  | Event.bmi2_interface_init _ r => some r
  | Event.bmi270_init r => some r
  | Event.bmi2_get_int_pin_config _ r => some r
  | Event.bmi270_sensor_enable _ _ r => some r
  | Event.bmi270_get_sensor_config _ _ r => some r
  | Event.bmi2_set_int_pin_config _ r => some r
  | Event.bmi270_map_feat_int _ _ _ r => some r
  | Event.bmi2_get_int_status_ret _ r => some r
  | _ => none

/-- The status returned by the last status-returning driver call of the trace. -/
def last_status (tr : List Event) : Option int8_t := (tr.filterMap Event.status?).getLast?

/-- Nothing of the setup that comes after the call `c` in program order happened: no later
setup call, no interrupt attached, poll loop not entered. -/
def AbortsAfter (c : SetupCall) (tr : List Event) : Prop :=
  (∀ d : SetupCall, c.order < d.order → called d tr = false) ∧
  tr.any Event.isAttach = false ∧ tr.any Event.isFlagRead = false

/-- The state in which `main` enters the poll loop. -/
def loop_entry (env : Env) : LoopState :=
  ⟨interrupt_status_init, env.map_feat_int_rslt, 0⟩

/-- The three statuses that `main` tests before the poll loop are all `BMI2_OK`. -/
def setup_ok (env : Env) : Prop :=
  env.get_int_pin_config_rslt = BMI2_OK ∧ env.sensor_enable_rslt = BMI2_OK ∧
  env.set_int_pin_config_rslt = BMI2_OK

instance (env : Env) : Decidable (setup_ok env) := by
  unfold setup_ok; infer_instance

/-- The event is one that the poll loop or the interrupt service routine produces. -/
def Event.isLoopEvent : Event → Bool
  | Event.interrupt_callback _ _ => true
  | Event.read_interrupt_status _ => true
  | Event.write_interrupt_status _ => true
  | Event.bmi2_get_int_status_call => true
  | Event.bmi2_get_int_status_ret _ _ => true
  | Event.bmi2_error_codes_print_result _ => true
  | Event.printf msg => msg == MSG_SIG_MOTION
  | _ => false

/-- The environment `env` with other statuses for the four setup calls whose status `main`
does not test. -/
def with_untested (env : Env) (a b c d : int8_t) : Env :=
  { env with
    interface_init_rslt := a
    bmi270_init_rslt := b
    get_sensor_config_rslt := c
    map_feat_int_rslt := d }

/-- The state of the variables at the point the loop run stopped. -/
def LoopOut.st : LoopOut → LoopState
  | LoopOut.running st => st
  | LoopOut.exited st => st

/-- The status returned by the last status-returning driver call of the trace, or `d` when
the trace has none. -/
def last_status_from (d : int8_t) (tr : List Event) : int8_t := (last_status tr).getD d

/-- The value of the flag that the test `interrupt_status == 1` of an iteration reads. -/
def flag_at_test (st : LoopState) (it : IterEnv) : Nat :=
  run_isr it.isr_before_test st.interrupt_status

/-- The environment `env` with another list of loop iterations. -/
def with_poll (env : Env) (its : List IterEnv) : Env := { env with poll := its }

/-! ## The trace of `main`, piece by piece -/

/-- The events of the three calls that `main` always makes. -/
def trace_first (h : Header) (env : Env) : List Event :=
  [Event.bmi2_interface_init h.BMI2_I2C_INTF env.interface_init_rslt,
   Event.bmi2_error_codes_print_result env.interface_init_rslt,
   Event.bmi270_init env.bmi270_init_rslt,
   Event.bmi2_error_codes_print_result env.bmi270_init_rslt,
   Event.bmi2_get_int_pin_config env.pin_config env.get_int_pin_config_rslt,
   Event.bmi2_error_codes_print_result env.get_int_pin_config_rslt]

/-- The events of the call of `bmi270_sensor_enable`. -/
def trace_enable (h : Header) (env : Env) : List Event :=
  [Event.bmi270_sensor_enable [h.BMI2_ACCEL, h.BMI2_SIG_MOTION] 2 env.sensor_enable_rslt,
   Event.bmi2_error_codes_print_result env.sensor_enable_rslt]

/-- The pin configuration after the six assignments of lines 107 to 112. -/
def pin_config_written (h : Header) (c : bmi2_int_pin_config) : bmi2_int_pin_config :=
  ⟨h.BMI2_INT1, h.BMI2_INT_NON_LATCH,
    (⟨h.BMI2_INT_ACTIVE_HIGH, h.BMI2_INT_PUSH_PULL, h.BMI2_INT_OUTPUT_ENABLE,
      h.BMI2_INT_INPUT_DISABLE⟩, c.pin_cfg.2)⟩

/-- The events of the calls of `bmi270_get_sensor_config` and `bmi2_set_int_pin_config`. -/
def trace_pin (h : Header) (env : Env) : List Event :=
  [Event.bmi270_get_sensor_config h.BMI2_SIG_MOTION 1 env.get_sensor_config_rslt,
   Event.bmi2_error_codes_print_result env.get_sensor_config_rslt,
   Event.bmi2_set_int_pin_config (pin_config_written h env.pin_config)
     env.set_int_pin_config_rslt,
   Event.bmi2_error_codes_print_result env.set_int_pin_config_rslt]

/-- The calls of `coines_attach_interrupt`, lines 130 to 143. -/
def trace_attach (h : Header) (env : Env) : List Event :=
  if get_board_info h env 0 = BOARD_MCU_APP20 then
    [Event.coines_attach_interrupt h.COINES_SHUTTLE_PIN_21 h.COINES_PIN_INTERRUPT_FALLING_EDGE]
  else if h.MCU_APP20 = false ∧ get_board_info h env 0 = BOARD_MCU_APP30 then
    [Event.coines_attach_interrupt h.COINES_MINI_SHUTTLE_PIN_1_7
      h.COINES_PIN_INTERRUPT_FALLING_EDGE]
  else []

/-- The events from the call of `bmi270_map_feat_int` to the first `printf`. -/
def trace_map (h : Header) (env : Env) : List Event :=
  [Event.bmi270_map_feat_int h.BMI2_SIG_MOTION h.BMI2_INT1 1 env.map_feat_int_rslt,
   Event.bmi2_error_codes_print_result env.map_feat_int_rslt,
   Event.coines_get_board_info env.board_info_board env.board_info_result] ++
  trace_attach h env ++ [Event.printf MSG_MOVE]

/-- The trace of `main` when it reaches the poll loop. -/
def trace_entry (h : Header) (env : Env) : List Event :=
  trace_first h env ++ trace_enable h env ++ trace_pin h env ++ trace_map h env

/-- The run of `main` from the trace at loop entry and the run of the loop. -/
def main_after_loop (tr : List Event) (r : LoopRun) : Run :=
  match r.out with
  | LoopOut.running _ => ⟨tr ++ r.trace, none⟩
  | LoopOut.exited st => main_exit (tr ++ r.trace) st.rslt

/-! ## Concrete runs -/

/-- A header for the concrete runs: the significant-motion bit is bit 0 of `int_status`,
the interface is I2C, and the error status used in the runs is -2 (pattern 254). -/
def bmi270_header : Header where
  BMI2_I2C_INTF := 1
  BMI2_ACCEL := 0
  BMI2_SIG_MOTION := 3
  BMI2_INT1 := 1
  BMI2_INT_INPUT_DISABLE := 0
  BMI2_INT_ACTIVE_HIGH := 1
  BMI2_INT_PUSH_PULL := 0
  BMI2_INT_OUTPUT_ENABLE := 1
  BMI2_INT_NON_LATCH := 0
  BMI270_SIG_MOT_STATUS_MASK := 1
  COINES_SUCCESS := 0
  COINES_SHUTTLE_PIN_21 := 21
  COINES_MINI_SHUTTLE_PIN_1_7 := 22
  COINES_PIN_INTERRUPT_FALLING_EDGE := 2
  MCU_APP20 := false

/-- A pin configuration read from the device. -/
def sample_pin_config : bmi2_int_pin_config :=
  ⟨2, 1, (⟨0, 1, 0, 1⟩, ⟨1, 1, 0, 1⟩)⟩

/-- An iteration in which nothing happens: no interrupt. -/
def idle_iter : IterEnv := ⟨[], [], [], [], 0, 0, []⟩

/-- An iteration in which the interrupt fired before the test; the status read reports the
given `int_status` and returns the given status. -/
def fired_iter (int_status : Nat) (rslt : int8_t) : IterEnv :=
  ⟨[(21, 0)], [], [], [], int_status, rslt, []⟩

/-- Every call succeeds, the board is an APP3.0, nothing happens in the loop yet. -/
def env_ok : Env where
  interface_init_rslt := 0
  bmi270_init_rslt := 0
  pin_config := sample_pin_config
  get_int_pin_config_rslt := 0
  sensor_enable_rslt := 0
  get_sensor_config_rslt := 0
  set_int_pin_config_rslt := 0
  map_feat_int_rslt := 0
  board_info_board := 5
  board_info_result := 0
  poll := []

/-- Only `bmi2_interface_init` fails; one iteration of the loop without interrupt. -/
def env_init_fails : Env :=
  { env_ok with interface_init_rslt := 254, poll := [idle_iter] }

/-- The call of `bmi270_sensor_enable` fails. -/
def env_enable_fails : Env :=
  { env_ok with sensor_enable_rslt := 254, poll := [idle_iter] }

/-- The call of `coines_get_board_info` fails. -/
def env_board_fails : Env :=
  { env_ok with board_info_result := -1, poll := [idle_iter] }

/-- Every call succeeds; the interrupt fires in the second iteration of the loop and the
status read reports significant motion. -/
def env_motion : Env :=
  { env_ok with poll := [idle_iter, fired_iter 1 0, idle_iter] }

/-- Every call of the setup succeeds; in the second iteration the interrupt has fired and
`bmi2_get_int_status` returns the error -2 with the significant-motion bit set. -/
def env_motion_error : Env :=
  { env_ok with poll := [idle_iter, fired_iter 1 254, idle_iter] }

/-- Every call of the setup succeeds; the interrupt fires in the first two iterations, the
first status read succeeds without the motion bit, the second one fails with -2. -/
def env_read_fails : Env :=
  { env_ok with poll := [fired_iter 0 0, fired_iter 0 254, idle_iter] }

/-- The setup succeeds and no interrupt ever fires: three iterations of the loop. -/
def env_silent : Env :=
  { env_ok with poll := [idle_iter, idle_iter, idle_iter] }

/-- Only `bmi270_map_feat_int` fails, and no interrupt ever fires. -/
def env_map_fails : Env :=
  { env_ok with map_feat_int_rslt := 254, poll := [idle_iter, idle_iter, idle_iter] }

/-- An iteration in which the interrupt fired before the test and fires again while
`bmi2_get_int_status` runs; the status read succeeds with the motion bit clear. -/
def refired_iter : IterEnv := ⟨[(21, 0)], [], [], [(21, 7)], 0, 0, []⟩

/-- The setup succeeds; the interrupt fires again during the first status read, and no
more afterwards. -/
def env_refired : Env :=
  { env_ok with poll := [refired_iter, idle_iter, idle_iter] }

/-- An iteration without interrupt in which `bmi2_get_int_status`, were it called, would
return the error -2. -/
def failing_idle_iter : IterEnv := ⟨[], [], [], [], 0, 254, []⟩

/-- The setup succeeds, no interrupt ever fires, and from the second iteration of the loop
on the driver is forced to fail: every status read would return -2. -/
def env_forced_error : Env :=
  { env_ok with poll := [idle_iter, failing_idle_iter, failing_idle_iter] }

/-! ## The shape of `main` -/

theorem main_eq (h : Header) (env : Env) :
    main h env =
      if env.get_int_pin_config_rslt = BMI2_OK then
        if env.sensor_enable_rslt = BMI2_OK then
          if env.set_int_pin_config_rslt = BMI2_OK then
            main_after_loop (trace_entry h env) (poll_loop h (loop_entry env) env.poll)
          else
            main_exit (trace_first h env ++ trace_enable h env ++ trace_pin h env)
              env.set_int_pin_config_rslt
        else main_exit (trace_first h env ++ trace_enable h env) env.sensor_enable_rslt
      else main_exit (trace_first h env) env.get_int_pin_config_rslt := by
  unfold main
  by_cases h1 : env.get_int_pin_config_rslt = BMI2_OK
  · by_cases h2 : env.sensor_enable_rslt = BMI2_OK
    · by_cases h3 : env.set_int_pin_config_rslt = BMI2_OK
      · simp only [h1, h2, h3, if_true]
        unfold main_after_loop trace_entry trace_map trace_attach trace_pin trace_enable
          trace_first pin_config_written loop_entry
        simp only [h1, h2, h3]
        by_cases hb : get_board_info h env 0 = BOARD_MCU_APP20
        · simp [hb]
        · by_cases hc : h.MCU_APP20 = false ∧ get_board_info h env 0 = BOARD_MCU_APP30
          · have hne : BOARD_MCU_APP30 ≠ BOARD_MCU_APP20 := by decide
            simp [hc, hne]
          · simp [hb, hc]
      · simp [h1, h2, h3, trace_first, trace_enable, trace_pin, pin_config_written]
    · simp [h1, h2, trace_first, trace_enable]
  · simp [h1, trace_first]

/-! ## The interrupt service routine -/

theorem run_isr_nil (f : Nat) : run_isr [] f = f := rfl

theorem run_isr_cons (p : Nat × Nat) (ps : List (Nat × Nat)) (f : Nat) :
    run_isr (p :: ps) f = 1 := by
  unfold run_isr
  simp only [List.foldl_cons, interrupt_callback]
  induction ps with
  | nil => rfl
  | cons q qs ih => simpa [List.foldl_cons, interrupt_callback] using ih

theorem run_isr_of_ne_nil (ps : List (Nat × Nat)) (f : Nat) (hps : ps ≠ []) :
    run_isr ps f = 1 := by
  cases ps with
  | nil => exact absurd rfl hps
  | cons p ps => exact run_isr_cons p ps f

theorem run_isr_one (ps : List (Nat × Nat)) : run_isr ps 1 = 1 := by
  cases ps with
  | nil => rfl
  | cons p ps => exact run_isr_cons p ps 1

theorem isr_events_loop (ps : List (Nat × Nat)) :
    ∀ e ∈ isr_events ps, Event.isLoopEvent e = true := by
  intro e he
  unfold isr_events at he
  obtain ⟨p, _, rfl⟩ := List.mem_map.1 he
  rfl

theorem isr_events_callback (ps : List (Nat × Nat)) :
    ∀ e ∈ isr_events ps, Event.isCallback e = true := by
  intro e he
  unfold isr_events at he
  obtain ⟨p, _, rfl⟩ := List.mem_map.1 he
  rfl

/-! ## Events of the poll loop -/

theorem isr_events_all_loop (ps : List (Nat × Nat)) :
    (isr_events ps).all Event.isLoopEvent = true := by
  rw [List.all_eq_true]
  exact isr_events_loop ps

theorem loop_body_events (h : Header) (st : LoopState) (it : IterEnv) :
    ∀ e ∈ (loop_body h st it).trace, Event.isLoopEvent e = true := by
  rw [← List.all_eq_true]
  unfold loop_body
  simp only []
  split_ifs <;>
    simp [List.all_append, isr_events_all_loop, Event.isLoopEvent]

theorem poll_loop_events (h : Header) (its : List IterEnv) :
    ∀ (st : LoopState), ∀ e ∈ (poll_loop h st its).trace, Event.isLoopEvent e = true := by
  induction its with
  | nil => intro st e he; simp [poll_loop] at he
  | cons it rest ih =>
    intro st e he
    unfold poll_loop at he
    simp only [] at he
    split_ifs at he
    · exact loop_body_events h st it e he
    · rcases List.mem_append.1 he with he | he
      · exact loop_body_events h st it e he
      · exact ih _ e he
    · exact loop_body_events h st it e he

theorem poll_loop_any_false (p : Event → Bool)
    (hp : ∀ e, Event.isLoopEvent e = true → p e = false)
    (h : Header) (st : LoopState) (its : List IterEnv) :
    (poll_loop h st its).trace.any p = false := by
  rw [List.any_eq_false]
  intro e he
  simp [hp e (poll_loop_events h its st e he)]

theorem isCall_of_loop (c : SetupCall) (e : Event) (he : Event.isLoopEvent e = true) :
    Event.isCall c e = false := by
  cases e <;> cases c <;> simp_all [Event.isLoopEvent, Event.isCall]

theorem isAttach_of_loop (e : Event) (he : Event.isLoopEvent e = true) :
    Event.isAttach e = false := by
  cases e <;> simp_all [Event.isLoopEvent, Event.isAttach]

theorem isBoardInfo_of_loop (e : Event) (he : Event.isLoopEvent e = true) :
    Event.isBoardInfo e = false := by
  cases e <;> simp_all [Event.isLoopEvent, Event.isBoardInfo]

theorem main_after_loop_trace (tr : List Event) (r : LoopRun) :
    (main_after_loop tr r).trace = tr ++ r.trace ∨
      (main_after_loop tr r).trace = tr ++ r.trace ++ [Event.bmi2_coines_deinit] := by
  unfold main_after_loop
  cases r.out with
  | running st => left; rfl
  | exited st => right; rfl

theorem main_after_loop_any (p : Event → Bool) (hd : p Event.bmi2_coines_deinit = false)
    (tr : List Event) (r : LoopRun) :
    (main_after_loop tr r).trace.any p = (tr.any p || r.trace.any p) := by
  rcases main_after_loop_trace tr r with hr | hr <;> rw [hr] <;>
    simp [List.any_append, hd]

theorem trace_attach_any_call (c : SetupCall) (h : Header) (env : Env) :
    (trace_attach h env).any (Event.isCall c) = false := by
  unfold trace_attach
  split_ifs <;> cases c <;> simp [Event.isCall]

theorem trace_attach_any_board (h : Header) (env : Env) :
    (trace_attach h env).any Event.isBoardInfo = false := by
  unfold trace_attach
  split_ifs <;> simp [Event.isBoardInfo]

theorem trace_attach_any_read (h : Header) (env : Env) :
    (trace_attach h env).any Event.isFlagRead = false := by
  unfold trace_attach
  split_ifs <;> simp [Event.isFlagRead]

/-- The setup calls made by `main`, as a function of the three tested statuses. -/
theorem main_called (h : Header) (env : Env) (c : SetupCall) :
    called c (main h env).trace =
      match c with
      | SetupCall.interface_init => true
      | SetupCall.bmi270_init => true
      | SetupCall.get_int_pin_config => true
      | SetupCall.sensor_enable => decide (env.get_int_pin_config_rslt = BMI2_OK)
      | SetupCall.get_sensor_config =>
        decide (env.get_int_pin_config_rslt = BMI2_OK ∧ env.sensor_enable_rslt = BMI2_OK)
      | SetupCall.set_int_pin_config =>
        decide (env.get_int_pin_config_rslt = BMI2_OK ∧ env.sensor_enable_rslt = BMI2_OK)
      | SetupCall.map_feat_int => decide (setup_ok env) := by
  rw [main_eq]
  unfold called setup_ok
  by_cases h1 : env.get_int_pin_config_rslt = BMI2_OK
  · by_cases h2 : env.sensor_enable_rslt = BMI2_OK
    · by_cases h3 : env.set_int_pin_config_rslt = BMI2_OK
      · simp only [h1, h2, h3, if_true]
        rw [main_after_loop_any _ (by cases c <;> rfl),
          poll_loop_any_false _ (isCall_of_loop c)]
        cases c <;>
          simp [trace_entry, trace_first, trace_enable, trace_pin, trace_map, List.any_append,
            Event.isCall, trace_attach_any_call]
      · cases c <;>
          simp [h1, h2, h3, main_exit, trace_first, trace_enable, trace_pin, List.any_append,
            Event.isCall]
    · cases c <;>
        simp [h1, h2, main_exit, trace_first, trace_enable, List.any_append, Event.isCall]
  · cases c <;> simp [h1, main_exit, trace_first, List.any_append, Event.isCall]

theorem loop_body_any_read (h : Header) (st : LoopState) (it : IterEnv) :
    (loop_body h st it).trace.any Event.isFlagRead = true := by
  unfold loop_body
  simp only []
  split_ifs <;> simp [List.any_append, Event.isFlagRead]

theorem poll_loop_any_read (h : Header) (st : LoopState) (its : List IterEnv) :
    (poll_loop h st its).trace.any Event.isFlagRead = decide (its ≠ []) := by
  cases its with
  | nil => simp [poll_loop]
  | cons it rest =>
    unfold poll_loop
    simp only []
    split_ifs <;> simp [List.any_append, loop_body_any_read]

theorem main_any_read (h : Header) (env : Env) :
    (main h env).trace.any Event.isFlagRead = decide (setup_ok env ∧ env.poll ≠ []) := by
  rw [main_eq]
  unfold setup_ok
  by_cases h1 : env.get_int_pin_config_rslt = BMI2_OK
  · by_cases h2 : env.sensor_enable_rslt = BMI2_OK
    · by_cases h3 : env.set_int_pin_config_rslt = BMI2_OK
      · simp only [h1, h2, h3, if_true]
        rw [main_after_loop_any _ rfl, poll_loop_any_read]
        simp [trace_entry, trace_first, trace_enable, trace_pin, trace_map, List.any_append,
          Event.isFlagRead, trace_attach_any_read]
      · simp [h1, h2, h3, main_exit, trace_first, trace_enable, trace_pin, List.any_append,
          Event.isFlagRead]
    · simp [h1, h2, main_exit, trace_first, trace_enable, List.any_append, Event.isFlagRead]
  · simp [h1, main_exit, trace_first, List.any_append, Event.isFlagRead]

theorem main_any_board (h : Header) (env : Env) :
    (main h env).trace.any Event.isBoardInfo = decide (setup_ok env) := by
  rw [main_eq]
  unfold setup_ok
  by_cases h1 : env.get_int_pin_config_rslt = BMI2_OK
  · by_cases h2 : env.sensor_enable_rslt = BMI2_OK
    · by_cases h3 : env.set_int_pin_config_rslt = BMI2_OK
      · simp only [h1, h2, h3, if_true]
        rw [main_after_loop_any _ rfl, poll_loop_any_false _ isBoardInfo_of_loop]
        simp [trace_entry, trace_first, trace_enable, trace_pin, trace_map, List.any_append,
          Event.isBoardInfo, trace_attach_any_board]
      · simp [h1, h2, h3, main_exit, trace_first, trace_enable, trace_pin, List.any_append,
          Event.isBoardInfo]
    · simp [h1, h2, main_exit, trace_first, trace_enable, List.any_append, Event.isBoardInfo]
  · simp [h1, main_exit, trace_first, List.any_append, Event.isBoardInfo]

theorem main_any_attach (h : Header) (env : Env) :
    (main h env).trace.any Event.isAttach =
      decide (setup_ok env ∧ trace_attach h env ≠ []) := by
  rw [main_eq]
  unfold setup_ok
  by_cases h1 : env.get_int_pin_config_rslt = BMI2_OK
  · by_cases h2 : env.sensor_enable_rslt = BMI2_OK
    · by_cases h3 : env.set_int_pin_config_rslt = BMI2_OK
      · simp only [h1, h2, h3, if_true]
        rw [main_after_loop_any _ rfl, poll_loop_any_false _ isAttach_of_loop]
        unfold trace_entry trace_first trace_enable trace_pin trace_map trace_attach
        split_ifs <;> simp [List.any_append, Event.isAttach]
      · simp [h1, h2, h3, main_exit, trace_first, trace_enable, trace_pin, List.any_append,
          Event.isAttach]
    · simp [h1, h2, main_exit, trace_first, trace_enable, List.any_append, Event.isAttach]
  · simp [h1, main_exit, trace_first, List.any_append, Event.isAttach]

theorem trace_attach_eq_nil (h : Header) (env : Env)
    (hb : get_board_info h env 0 ≠ BOARD_MCU_APP20 ∧ get_board_info h env 0 ≠ BOARD_MCU_APP30) :
    trace_attach h env = [] := by
  unfold trace_attach
  simp [hb.1, hb.2]

theorem main_mem_move (h : Header) (env : Env) :
    Event.printf MSG_MOVE ∈ (main h env).trace ↔ setup_ok env := by
  have hk : ∀ tr : List Event, Event.printf MSG_MOVE ∈ tr ↔
      tr.any (fun e => decide (e = Event.printf MSG_MOVE)) = true := by
    intro tr; simp
  rw [hk, main_eq]
  unfold setup_ok
  by_cases h1 : env.get_int_pin_config_rslt = BMI2_OK
  · by_cases h2 : env.sensor_enable_rslt = BMI2_OK
    · by_cases h3 : env.set_int_pin_config_rslt = BMI2_OK
      · simp only [h1, h2, h3, if_true]
        rw [main_after_loop_any _ (by decide)]
        simp [trace_entry, trace_map, List.any_append]
      · simp [h1, h2, h3, main_exit, trace_first, trace_enable, trace_pin, List.any_append]
    · simp [h1, h2, main_exit, trace_first, trace_enable, List.any_append]
  · simp [h1, main_exit, trace_first, List.any_append]

/-! ## Claims on the setup sequence -/

/-- C1, as stated, fails: with `bmi2_interface_init` returning the error -2 and every other
call succeeding, `bmi2_interface_init` is called and returns a status other than `BMI2_OK`,
and yet the later setup calls are made (here `bmi270_init`), the interrupt is attached and
the poll loop is entered. -/
theorem c1_counterexample :
    called SetupCall.interface_init (main bmi270_header env_init_fails).trace = true ∧
    SetupCall.status env_init_fails SetupCall.interface_init ≠ BMI2_OK ∧
    called SetupCall.bmi270_init (main bmi270_header env_init_fails).trace = true ∧
    (main bmi270_header env_init_fails).trace.any Event.isAttach = true ∧
    (main bmi270_header env_init_fails).trace.any Event.isFlagRead = true ∧
    ¬ AbortsAfter SetupCall.interface_init (main bmi270_header env_init_fails).trace := by
  refine ⟨by decide, by decide, by decide, by decide, by decide, ?_⟩
  intro hab
  exact absurd hab.2.1 (by decide)

/-- C1, amended: when one of the three calls whose status `main` tests
(`bmi2_get_int_pin_config`, `bmi270_sensor_enable`, `bmi2_set_int_pin_config`) is called and
returns a status other than `BMI2_OK`, no setup call that comes after it in program order
is executed, the interrupt is not attached and the poll loop is not entered; after the
failing call only its status is printed and `bmi2_coines_deinit` runs, and `main` returns
that status. -/
theorem c1_abort_on_tested_failure (h : Header) (env : Env) (c : SetupCall)
    (hc : c = SetupCall.get_int_pin_config ∨ c = SetupCall.sensor_enable ∨
      c = SetupCall.set_int_pin_config)
    (hcalled : called c (main h env).trace = true)
    (hfail : SetupCall.status env c ≠ BMI2_OK) :
    AbortsAfter c (main h env).trace ∧
    (main h env).ret = some (sign_extend (SetupCall.status env c)) ∧
    ∃ pre e, Event.isCall c e = true ∧
      (main h env).trace =
        pre ++ [e, Event.bmi2_error_codes_print_result (SetupCall.status env c),
          Event.bmi2_coines_deinit] := by
  have hng : ¬ setup_ok env := by
    rw [main_called] at hcalled
    unfold setup_ok
    rcases hc with rfl | rfl | rfl <;> simp_all [SetupCall.status]
  refine ⟨⟨?_, ?_, ?_⟩, ?_, ?_⟩
  · intro d hd
    rw [main_called] at hcalled ⊢
    rcases hc with rfl | rfl | rfl <;> cases d <;>
      simp_all [SetupCall.status, SetupCall.order, setup_ok]
  · rw [main_any_attach]; simp [hng]
  · rw [main_any_read]; simp [hng]
  · rw [main_called] at hcalled
    rw [main_eq]
    rcases hc with rfl | rfl | rfl <;> simp_all [SetupCall.status, main_exit]
  · rw [main_called] at hcalled
    rw [main_eq]
    rcases hc with rfl | rfl | rfl
    · refine ⟨[Event.bmi2_interface_init h.BMI2_I2C_INTF env.interface_init_rslt,
        Event.bmi2_error_codes_print_result env.interface_init_rslt,
        Event.bmi270_init env.bmi270_init_rslt,
        Event.bmi2_error_codes_print_result env.bmi270_init_rslt],
        Event.bmi2_get_int_pin_config env.pin_config env.get_int_pin_config_rslt, rfl, ?_⟩
      simp_all [SetupCall.status, main_exit, trace_first]
    · refine ⟨trace_first h env,
        Event.bmi270_sensor_enable [h.BMI2_ACCEL, h.BMI2_SIG_MOTION] 2 env.sensor_enable_rslt,
        rfl, ?_⟩
      simp_all [SetupCall.status, main_exit, trace_enable]
    · refine ⟨trace_first h env ++ trace_enable h env ++
          [Event.bmi270_get_sensor_config h.BMI2_SIG_MOTION 1 env.get_sensor_config_rslt,
           Event.bmi2_error_codes_print_result env.get_sensor_config_rslt],
        Event.bmi2_set_int_pin_config (pin_config_written h env.pin_config)
          env.set_int_pin_config_rslt, rfl, ?_⟩
      simp_all [SetupCall.status, main_exit, trace_pin]

/-- C1 amended, on a concrete run: `bmi270_sensor_enable` returns -2. -/
theorem c1_abort_on_tested_failure_witness :
    AbortsAfter SetupCall.sensor_enable (main bmi270_header env_enable_fails).trace ∧
    (main bmi270_header env_enable_fails).ret = some (-2) :=
  ⟨(c1_abort_on_tested_failure bmi270_header env_enable_fails SetupCall.sensor_enable
      (Or.inr (Or.inl rfl)) (by decide) (by decide)).1,
   (c1_abort_on_tested_failure bmi270_header env_enable_fails SetupCall.sensor_enable
      (Or.inr (Or.inl rfl)) (by decide) (by decide)).2.1⟩

/-- C10: `bmi2_interface_init`, `bmi270_init` and `bmi2_get_int_pin_config` are always
called; `bmi270_sensor_enable` is called exactly when `bmi2_get_int_pin_config` returned
`BMI2_OK`; `bmi270_get_sensor_config` and `bmi2_set_int_pin_config` exactly when in addition
`bmi270_sensor_enable` returned `BMI2_OK`; `bmi270_map_feat_int`, `get_board_info` and the
poll loop are reached exactly when in addition `bmi2_set_int_pin_config` returned `BMI2_OK`
(the loop is reached when the `printf` in front of it runs, and its first action, the test of
the flag, is in the trace as soon as one iteration is run). Replacing the statuses of
`bmi2_interface_init`, `bmi270_init`, `bmi270_get_sensor_config` and `bmi270_map_feat_int`
by any others changes none of this. -/
theorem c10_setup_calls_made (h : Header) (env : Env) :
    called SetupCall.interface_init (main h env).trace = true ∧
    called SetupCall.bmi270_init (main h env).trace = true ∧
    called SetupCall.get_int_pin_config (main h env).trace = true ∧
    (called SetupCall.sensor_enable (main h env).trace = true ↔
      env.get_int_pin_config_rslt = BMI2_OK) ∧
    (called SetupCall.get_sensor_config (main h env).trace = true ↔
      env.get_int_pin_config_rslt = BMI2_OK ∧ env.sensor_enable_rslt = BMI2_OK) ∧
    (called SetupCall.set_int_pin_config (main h env).trace = true ↔
      env.get_int_pin_config_rslt = BMI2_OK ∧ env.sensor_enable_rslt = BMI2_OK) ∧
    (called SetupCall.map_feat_int (main h env).trace = true ↔
      env.get_int_pin_config_rslt = BMI2_OK ∧ env.sensor_enable_rslt = BMI2_OK ∧
        env.set_int_pin_config_rslt = BMI2_OK) ∧
    ((main h env).trace.any Event.isBoardInfo = true ↔
      env.get_int_pin_config_rslt = BMI2_OK ∧ env.sensor_enable_rslt = BMI2_OK ∧
        env.set_int_pin_config_rslt = BMI2_OK) ∧
    (Event.printf MSG_MOVE ∈ (main h env).trace ↔
      env.get_int_pin_config_rslt = BMI2_OK ∧ env.sensor_enable_rslt = BMI2_OK ∧
        env.set_int_pin_config_rslt = BMI2_OK) ∧
    ((main h env).trace.any Event.isFlagRead = true ↔
      (env.get_int_pin_config_rslt = BMI2_OK ∧ env.sensor_enable_rslt = BMI2_OK ∧
        env.set_int_pin_config_rslt = BMI2_OK) ∧ env.poll ≠ []) ∧
    ∀ a b c d : int8_t,
      (∀ x : SetupCall,
        called x (main h (with_untested env a b c d)).trace =
        called x (main h env).trace) ∧
      (main h (with_untested env a b c d)).trace.any Event.isBoardInfo =
        (main h env).trace.any Event.isBoardInfo ∧
      (Event.printf MSG_MOVE ∈ (main h (with_untested env a b c d)).trace ↔ Event.printf MSG_MOVE ∈ (main h env).trace) ∧
      (main h (with_untested env a b c d)).trace.any Event.isFlagRead =
        (main h env).trace.any Event.isFlagRead := by
  refine ⟨?_, ?_, ?_, ?_, ?_, ?_, ?_, ?_, ?_, ?_, ?_⟩
  · rw [main_called]
  · rw [main_called]
  · rw [main_called]
  · rw [main_called]; simp
  · rw [main_called]; simp
  · rw [main_called]; simp
  · rw [main_called]; simp [setup_ok]
  · rw [main_any_board]; simp [setup_ok]
  · rw [main_mem_move]; rfl
  · rw [main_any_read]; simp [setup_ok]
  · intro a b c d
    refine ⟨?_, ?_, ?_, ?_⟩
    · intro x
      rw [main_called, main_called]
      cases x <;> simp [setup_ok, with_untested]
    · rw [main_any_board, main_any_board]; simp [setup_ok, with_untested]
    · rw [main_mem_move, main_mem_move]; simp [setup_ok, with_untested]
    · rw [main_any_read, main_any_read]; simp [setup_ok, with_untested]

/-- C5: when the board identifier that `get_board_info` leaves in `board` is neither
`BOARD_MCU_APP20` (0x03) nor `BOARD_MCU_APP30` (0x05), no call of `coines_attach_interrupt`
is in the trace of `main`, however long the run; when `coines_get_board_info` does not return
`COINES_SUCCESS`, `get_board_info` leaves the identifier at its initial value 0 and, again,
`coines_attach_interrupt` is never called. -/
theorem c5_unknown_board_no_attach (h : Header) (env : Env) :
    BOARD_MCU_APP20 = 0x03 ∧ BOARD_MCU_APP30 = 0x05 ∧
    (get_board_info h env 0 ≠ BOARD_MCU_APP20 → get_board_info h env 0 ≠ BOARD_MCU_APP30 →
      ∀ pin mode, Event.coines_attach_interrupt pin mode ∉ (main h env).trace) ∧
    (env.board_info_result ≠ h.COINES_SUCCESS →
      get_board_info h env 0 = 0 ∧
      ∀ pin mode, Event.coines_attach_interrupt pin mode ∉ (main h env).trace) := by
  have key : get_board_info h env 0 ≠ BOARD_MCU_APP20 →
      get_board_info h env 0 ≠ BOARD_MCU_APP30 →
      ∀ pin mode, Event.coines_attach_interrupt pin mode ∉ (main h env).trace := by
    intro h20 h30 pin mode hmem
    have hany : (main h env).trace.any Event.isAttach = true :=
      List.any_eq_true.2 ⟨_, hmem, rfl⟩
    rw [main_any_attach, trace_attach_eq_nil h env ⟨h20, h30⟩] at hany
    simp at hany
  refine ⟨rfl, rfl, key, ?_⟩
  intro hres
  have h0 : get_board_info h env 0 = 0 := by
    unfold get_board_info
    simp [hres]
  refine ⟨h0, key ?_ ?_⟩
  · rw [h0]; decide
  · rw [h0]; decide

/-- C5 on a concrete run: `coines_get_board_info` returns -1. -/
theorem c5_unknown_board_no_attach_witness :
    (get_board_info bmi270_header env_board_fails 0 ≠ BOARD_MCU_APP20 ∧
      get_board_info bmi270_header env_board_fails 0 ≠ BOARD_MCU_APP30 ∧
      env_board_fails.board_info_result ≠ bmi270_header.COINES_SUCCESS) ∧
    (∀ pin mode,
      Event.coines_attach_interrupt pin mode ∉ (main bmi270_header env_board_fails).trace) ∧
    get_board_info bmi270_header env_board_fails 0 = 0 :=
  ⟨by decide,
   (c5_unknown_board_no_attach bmi270_header env_board_fails).2.2.1 (by decide) (by decide),
   ((c5_unknown_board_no_attach bmi270_header env_board_fails).2.2.2 (by decide)).1⟩

/-! ## The status returned by `main` -/

theorem sign_extend_eq_zero (s : int8_t) : sign_extend s = 0 ↔ s = BMI2_OK := by
  unfold sign_extend BMI2_OK
  have hs := s.isLt
  constructor
  · intro h0
    apply Fin.ext
    simp only [Fin.val_zero]
    split_ifs at h0 <;> omega
  · intro h0
    subst h0
    simp

theorem last_status_from_append (d : int8_t) (a b : List Event) :
    last_status_from d (a ++ b) = last_status_from (last_status_from d a) b := by
  unfold last_status_from last_status
  rw [List.filterMap_append, List.getLast?_append]
  cases (List.filterMap Event.status? b).getLast? <;>
    cases (List.filterMap Event.status? a).getLast? <;> rfl

theorem last_status_append (s : int8_t) (a b : List Event) (ha : last_status a = some s) :
    last_status (a ++ b) = some (last_status_from s b) := by
  unfold last_status_from
  unfold last_status at ha ⊢
  rw [List.filterMap_append, List.getLast?_append, ha]
  cases (List.filterMap Event.status? b).getLast? <;> rfl

theorem isr_events_status (ps : List (Nat × Nat)) :
    (isr_events ps).filterMap Event.status? = [] := by
  unfold isr_events
  induction ps with
  | nil => rfl
  | cons p ps ih => simp [List.filterMap_cons, Event.status?]

theorem loop_body_last_status (h : Header) (st : LoopState) (it : IterEnv) :
    last_status_from st.rslt (loop_body h st it).trace = (loop_body h st it).st.rslt := by
  unfold last_status_from last_status loop_body
  simp only []
  split_ifs <;>
    simp [List.filterMap_append, isr_events_status, List.filterMap_cons, Event.status?]

theorem poll_loop_last_status (h : Header) (its : List IterEnv) :
    ∀ st : LoopState,
      last_status_from st.rslt (poll_loop h st its).trace = (poll_loop h st its).out.st.rslt := by
  induction its with
  | nil => intro st; rfl
  | cons it rest ih =>
    intro st
    unfold poll_loop
    simp only []
    split_ifs
    · exact loop_body_last_status h st it
    · rw [last_status_from_append, loop_body_last_status]
      exact ih _
    · exact loop_body_last_status h st it

theorem trace_attach_status (h : Header) (env : Env) :
    (trace_attach h env).filterMap Event.status? = [] := by
  unfold trace_attach
  split_ifs <;> simp [List.filterMap_cons, Event.status?]

theorem last_status_trace_entry (h : Header) (env : Env) :
    last_status (trace_entry h env) = some env.map_feat_int_rslt := by
  unfold last_status trace_entry trace_map
  simp [List.filterMap_append, trace_attach_status, trace_first, trace_enable, trace_pin,
    List.filterMap_cons, Event.status?]

theorem main_after_loop_running (tr : List Event) (r : LoopRun) (st : LoopState)
    (hr : r.out = LoopOut.running st) : main_after_loop tr r = ⟨tr ++ r.trace, none⟩ := by
  unfold main_after_loop
  rw [hr]

theorem main_after_loop_exited (tr : List Event) (r : LoopRun) (st : LoopState)
    (hr : r.out = LoopOut.exited st) :
    main_after_loop tr r = main_exit (tr ++ r.trace) st.rslt := by
  unfold main_after_loop
  rw [hr]

/-- Whenever `main` returns, the last status-returning driver call of the run returned the
status that `main` converts to its return value. -/
theorem main_ret_last_status (h : Header) (env : Env) (r : Int)
    (hret : (main h env).ret = some r) :
    ∃ s, last_status (main h env).trace = some s ∧ r = sign_extend s := by
  rw [main_eq] at hret ⊢
  by_cases h1 : env.get_int_pin_config_rslt = BMI2_OK
  · by_cases h2 : env.sensor_enable_rslt = BMI2_OK
    · by_cases h3 : env.set_int_pin_config_rslt = BMI2_OK
      · simp only [h1, h2, h3, if_true] at hret ⊢
        cases hout : (poll_loop h (loop_entry env) env.poll).out with
        | running st =>
          rw [main_after_loop_running _ _ st hout] at hret
          simp at hret
        | exited st =>
          rw [main_after_loop_exited _ _ st hout] at hret ⊢
          refine ⟨st.rslt, ?_, ?_⟩
          · unfold main_exit
            simp only []
            rw [List.append_assoc,
              last_status_append _ _ _ (last_status_trace_entry h env),
              last_status_from_append]
            have hl := poll_loop_last_status h env.poll (loop_entry env)
            rw [hout] at hl
            simp only [loop_entry] at hl
            simp only [loop_entry]
            rw [hl]
            rfl
          · simpa [main_exit] using hret.symm
      · simp only [h1, h2, h3, if_true, if_false] at hret ⊢
        refine ⟨env.set_int_pin_config_rslt, ?_, by simpa [main_exit] using hret.symm⟩
        simp [main_exit, last_status, trace_first, trace_enable, trace_pin,
          List.filterMap_append, List.filterMap_cons, Event.status?]
    · simp only [h1, h2, if_true, if_false] at hret ⊢
      refine ⟨env.sensor_enable_rslt, ?_, by simpa [main_exit] using hret.symm⟩
      simp [main_exit, last_status, trace_first, trace_enable,
        List.filterMap_append, List.filterMap_cons, Event.status?]
  · simp only [h1, if_false] at hret ⊢
    refine ⟨env.get_int_pin_config_rslt, ?_, by simpa [main_exit] using hret.symm⟩
    simp [main_exit, last_status, trace_first,
      List.filterMap_append, List.filterMap_cons, Event.status?]

/-! ## Membership in the trace of `main` -/

theorem trace_attach_mem (h : Header) (env : Env) (e : Event) (he : e ∈ trace_attach h env) :
    Event.isAttach e = true := by
  unfold trace_attach at he
  split_ifs at he <;> simp at he <;> subst he <;> rfl

theorem main_trace_mem (h : Header) (env : Env) (e : Event) (he : e ∈ (main h env).trace) :
    e ∈ trace_entry h env ∨ Event.isLoopEvent e = true ∨ e = Event.bmi2_coines_deinit := by
  rw [main_eq] at he
  unfold trace_entry
  by_cases h1 : env.get_int_pin_config_rslt = BMI2_OK
  · by_cases h2 : env.sensor_enable_rslt = BMI2_OK
    · by_cases h3 : env.set_int_pin_config_rslt = BMI2_OK
      · simp only [h1, h2, h3, if_true] at he
        rcases main_after_loop_trace (trace_entry h env)
          (poll_loop h (loop_entry env) env.poll) with hr | hr <;>
          rw [hr] at he <;> unfold trace_entry at he <;>
          simp only [List.mem_append, List.mem_singleton] at he ⊢
        · rcases he with he | he
          · exact Or.inl he
          · exact Or.inr (Or.inl (poll_loop_events h _ _ e he))
        · rcases he with (he | he) | he
          · exact Or.inl he
          · exact Or.inr (Or.inl (poll_loop_events h _ _ e he))
          · exact Or.inr (Or.inr he)
      · simp only [h1, h2, h3, if_true, if_false, main_exit, List.mem_append,
          List.mem_singleton] at he ⊢
        rcases he with he | he
        · exact Or.inl (Or.inl he)
        · exact Or.inr (Or.inr he)
    · simp only [h1, h2, if_true, if_false, main_exit, List.mem_append,
        List.mem_singleton] at he ⊢
      rcases he with he | he
      · exact Or.inl (Or.inl (Or.inl he))
      · exact Or.inr (Or.inr he)
  · simp only [h1, if_false, main_exit, List.mem_append, List.mem_singleton] at he ⊢
    rcases he with he | he
    · exact Or.inl (Or.inl (Or.inl (Or.inl he)))
    · exact Or.inr (Or.inr he)

theorem main_mem_get (h : Header) (env : Env) (c : bmi2_int_pin_config) (r : int8_t)
    (he : Event.bmi2_get_int_pin_config c r ∈ (main h env).trace) : c = env.pin_config := by
  rcases main_trace_mem h env _ he with he | he | he
  · unfold trace_entry trace_map at he
    simp only [List.mem_append] at he
    rcases he with ((he | he) | he) | (he | he) | he
    · simp [trace_first] at he; exact he.1
    · simp [trace_enable] at he
    · simp [trace_pin] at he
    · simp at he
    · exact absurd (trace_attach_mem h env _ he) (by simp [Event.isAttach])
    · simp at he
  · simp [Event.isLoopEvent] at he
  · simp at he

theorem main_mem_set (h : Header) (env : Env) (c : bmi2_int_pin_config) (r : int8_t)
    (he : Event.bmi2_set_int_pin_config c r ∈ (main h env).trace) :
    c = pin_config_written h env.pin_config := by
  rcases main_trace_mem h env _ he with he | he | he
  · unfold trace_entry trace_map at he
    simp only [List.mem_append] at he
    rcases he with ((he | he) | he) | (he | he) | he
    · simp [trace_first] at he
    · simp [trace_enable] at he
    · simp [trace_pin] at he; exact he.1
    · simp at he
    · exact absurd (trace_attach_mem h env _ he) (by simp [Event.isAttach])
    · simp at he
  · simp [Event.isLoopEvent] at he
  · simp at he

theorem deinit_not_mem_entry (h : Header) (env : Env) :
    Event.bmi2_coines_deinit ∉ trace_entry h env := by
  intro he
  unfold trace_entry trace_map at he
  simp only [List.mem_append] at he
  rcases he with ((he | he) | he) | (he | he) | he
  · simp [trace_first] at he
  · simp [trace_enable] at he
  · simp [trace_pin] at he
  · simp at he
  · exact absurd (trace_attach_mem h env _ he) (by simp [Event.isAttach])
  · simp at he

theorem deinit_not_mem_loop (h : Header) (st : LoopState) (its : List IterEnv) :
    Event.bmi2_coines_deinit ∉ (poll_loop h st its).trace := by
  intro he
  exact absurd (poll_loop_events h its st _ he) (by simp [Event.isLoopEvent])

/-! ## Claims on the value returned, the cleanup and the pin configuration -/

/-- C2: on every run on which `main` returns, the value returned is the sign extension to
`int` of the status returned by the last status-returning call of the sensor driver made on
that run; it is 0 exactly when that call returned `BMI2_OK`. -/
theorem c2_return_is_last_status (h : Header) (env : Env) (r : Int)
    (hret : (main h env).ret = some r) :
    ∃ s, last_status (main h env).trace = some s ∧ r = sign_extend s ∧
      (r = 0 ↔ s = BMI2_OK) := by
  obtain ⟨s, hs, hr⟩ := main_ret_last_status h env r hret
  exact ⟨s, hs, hr, by rw [hr]; exact sign_extend_eq_zero s⟩

/-- C2 on a concrete run: the run in which significant motion is reported returns 0. -/
theorem c2_return_is_last_status_witness :
    (main bmi270_header env_motion).ret = some 0 ∧
    ∃ s, last_status (main bmi270_header env_motion).trace = some s ∧
      (0 : Int) = sign_extend s ∧ ((0 : Int) = 0 ↔ s = BMI2_OK) :=
  ⟨by decide, c2_return_is_last_status bmi270_header env_motion 0 (by decide)⟩

/-- C6: `main` returns as soon as one of the three tested setup calls fails, and on every
run on which `main` returns (after a failing step or after the poll loop),
`bmi2_coines_deinit` is called exactly once and is the last event of the run. -/
theorem c6_unconditional_cleanup (h : Header) (env : Env) :
    (¬ setup_ok env → (main h env).ret ≠ none) ∧
    ∀ r, (main h env).ret = some r →
      (main h env).trace.count Event.bmi2_coines_deinit = 1 ∧
      (main h env).trace.getLast? = some Event.bmi2_coines_deinit := by
  have hfirst : Event.bmi2_coines_deinit ∉ trace_first h env := by simp [trace_first]
  have henable : Event.bmi2_coines_deinit ∉ trace_enable h env := by simp [trace_enable]
  have hpin : Event.bmi2_coines_deinit ∉ trace_pin h env := by simp [trace_pin]
  rw [main_eq]
  unfold setup_ok
  by_cases h1 : env.get_int_pin_config_rslt = BMI2_OK
  · by_cases h2 : env.sensor_enable_rslt = BMI2_OK
    · by_cases h3 : env.set_int_pin_config_rslt = BMI2_OK
      · simp only [h1, h2, h3, if_true]
        refine ⟨fun hn => absurd ⟨trivial, trivial, trivial⟩ hn, ?_⟩
        intro r hret
        cases hout : (poll_loop h (loop_entry env) env.poll).out with
        | running st =>
          rw [main_after_loop_running _ _ st hout] at hret
          simp at hret
        | exited st =>
          rw [main_after_loop_exited _ _ st hout]
          unfold main_exit
          simp only []
          refine ⟨?_, List.getLast?_concat _⟩
          rw [List.count_append, List.count_append,
            List.count_eq_zero.2 (deinit_not_mem_entry h env),
            List.count_eq_zero.2 (deinit_not_mem_loop h _ _)]
          rfl
      · simp only [h1, h2, h3, if_true, if_false, main_exit]
        refine ⟨fun _ => by simp, fun r _ => ⟨?_, List.getLast?_concat _⟩⟩
        rw [List.count_append, List.count_append, List.count_append,
          List.count_eq_zero.2 hfirst, List.count_eq_zero.2 henable,
          List.count_eq_zero.2 hpin]
        rfl
    · simp only [h1, h2, if_true, if_false, main_exit]
      refine ⟨fun _ => by simp, fun r _ => ⟨?_, List.getLast?_concat _⟩⟩
      rw [List.count_append, List.count_append,
        List.count_eq_zero.2 hfirst, List.count_eq_zero.2 henable]
      rfl
  · simp only [h1, if_false, main_exit]
    refine ⟨fun _ => by simp, fun r _ => ⟨?_, List.getLast?_concat _⟩⟩
    rw [List.count_append, List.count_eq_zero.2 hfirst]
    rfl

/-- C6 on a concrete run: a run that fails at `bmi270_sensor_enable` returns and cleans up once. -/
theorem c6_unconditional_cleanup_witness :
    (¬ setup_ok env_enable_fails ∧ (main bmi270_header env_enable_fails).ret = some (-2)) ∧
    (main bmi270_header env_enable_fails).ret ≠ none ∧
    (main bmi270_header env_enable_fails).trace.count Event.bmi2_coines_deinit = 1 ∧
    (main bmi270_header env_enable_fails).trace.getLast? = some Event.bmi2_coines_deinit :=
  ⟨by decide,
   (c6_unconditional_cleanup bmi270_header env_enable_fails).1 (by decide),
   (c6_unconditional_cleanup bmi270_header env_enable_fails).2 (-2) (by decide)⟩

/-- C8: whatever configuration `c` the call of `bmi2_get_int_pin_config` left in
`pin_config`, the configuration `cfg` that `main` passes to `bmi2_set_int_pin_config` has
`pin_type = BMI2_INT1`, `pin_cfg[0].input_en = BMI2_INT_INPUT_DISABLE`,
`pin_cfg[0].lvl = BMI2_INT_ACTIVE_HIGH`, `pin_cfg[0].od = BMI2_INT_PUSH_PULL`,
`pin_cfg[0].output_en = BMI2_INT_OUTPUT_ENABLE`, `int_latch = BMI2_INT_NON_LATCH`, and its
`pin_cfg[1]` is that of `c`. -/
theorem c8_pin_config_frame (h : Header) (env : Env) (c cfg : bmi2_int_pin_config)
    (r1 r2 : int8_t)
    (hget : Event.bmi2_get_int_pin_config c r1 ∈ (main h env).trace)
    (hset : Event.bmi2_set_int_pin_config cfg r2 ∈ (main h env).trace) :
    cfg.pin_type = h.BMI2_INT1 ∧
    cfg.pin_cfg.1.input_en = h.BMI2_INT_INPUT_DISABLE ∧
    cfg.pin_cfg.1.lvl = h.BMI2_INT_ACTIVE_HIGH ∧
    cfg.pin_cfg.1.od = h.BMI2_INT_PUSH_PULL ∧
    cfg.pin_cfg.1.output_en = h.BMI2_INT_OUTPUT_ENABLE ∧
    cfg.int_latch = h.BMI2_INT_NON_LATCH ∧
    cfg.pin_cfg.2 = c.pin_cfg.2 := by
  rw [main_mem_get h env c r1 hget, main_mem_set h env cfg r2 hset]
  exact ⟨rfl, rfl, rfl, rfl, rfl, rfl, rfl⟩

/-- C8 on a concrete run: the configuration read is `sample_pin_config`. -/
theorem c8_pin_config_frame_witness :
    (Event.bmi2_get_int_pin_config sample_pin_config 0 ∈ (main bmi270_header env_ok).trace ∧
      Event.bmi2_set_int_pin_config ⟨1, 0, (⟨1, 0, 1, 0⟩, ⟨1, 1, 0, 1⟩)⟩ 0 ∈
        (main bmi270_header env_ok).trace) ∧
    (1 = bmi270_header.BMI2_INT1 ∧ 0 = bmi270_header.BMI2_INT_INPUT_DISABLE ∧
      1 = bmi270_header.BMI2_INT_ACTIVE_HIGH ∧ 0 = bmi270_header.BMI2_INT_PUSH_PULL ∧
      1 = bmi270_header.BMI2_INT_OUTPUT_ENABLE ∧ 0 = bmi270_header.BMI2_INT_NON_LATCH ∧
      (⟨1, 1, 0, 1⟩ : bmi2_int_pin_cfg) = sample_pin_config.pin_cfg.2) :=
  ⟨by decide,
   c8_pin_config_frame bmi270_header env_ok sample_pin_config
     ⟨1, 0, (⟨1, 0, 1, 0⟩, ⟨1, 1, 0, 1⟩)⟩ 0 0 (by decide) (by decide)⟩

/-! ## Runs of the poll loop -/

theorem run_isr_append (ps qs : List (Nat × Nat)) (f : Nat) :
    run_isr (ps ++ qs) f = run_isr qs (run_isr ps f) := by
  unfold run_isr
  rw [List.foldl_append]

theorem poll_loop_exit_now (h : Header) (st : LoopState) (it : IterEnv) (post : List IterEnv)
    (hexit : (loop_body h st it).brk = true ∨ (loop_body h st it).st.rslt ≠ BMI2_OK) :
    poll_loop h st (it :: post) =
      ⟨(loop_body h st it).trace, LoopOut.exited (loop_body h st it).st⟩ := by
  unfold poll_loop
  simp only []
  split_ifs with hb hr
  · rfl
  · rcases hexit with hx | hx
    · exact absurd hx hb
    · exact absurd hr hx
  · rfl

theorem poll_loop_continue (h : Header) (st : LoopState) (it : IterEnv) (post : List IterEnv)
    (hb : (loop_body h st it).brk = false) (hr : (loop_body h st it).st.rslt = BMI2_OK) :
    poll_loop h st (it :: post) =
      ⟨(loop_body h st it).trace ++ (poll_loop h (loop_body h st it).st post).trace,
        (poll_loop h (loop_body h st it).st post).out⟩ := by
  conv_lhs => unfold poll_loop
  simp [hb, hr]

theorem poll_loop_append_running (h : Header) (rest : List IterEnv) :
    ∀ (pre : List IterEnv) (st st' : LoopState),
      (poll_loop h st pre).out = LoopOut.running st' →
      poll_loop h st (pre ++ rest) =
        ⟨(poll_loop h st pre).trace ++ (poll_loop h st' rest).trace,
          (poll_loop h st' rest).out⟩ := by
  intro pre
  induction pre with
  | nil =>
    intro st st' hrun
    simp only [poll_loop, LoopOut.running.injEq] at hrun
    subst hrun
    simp [poll_loop]
  | cons it pre ih =>
    intro st st' hrun
    rw [List.cons_append]
    by_cases hb : (loop_body h st it).brk = true
    · rw [poll_loop_exit_now h st it pre (Or.inl hb)] at hrun
      simp at hrun
    · by_cases hr : (loop_body h st it).st.rslt = BMI2_OK
      · have hb' : (loop_body h st it).brk = false := by simpa using hb
        rw [poll_loop_continue h st it pre hb' hr] at hrun ⊢
        rw [poll_loop_continue h st it (pre ++ rest) hb' hr]
        simp only [] at hrun
        rw [ih _ _ hrun]
        simp [List.append_assoc]
      · rw [poll_loop_exit_now h st it pre (Or.inr hr)] at hrun
        simp at hrun

theorem main_of_setup_ok (h : Header) (env : Env) (hg : setup_ok env) :
    main h env =
      main_after_loop (trace_entry h env) (poll_loop h (loop_entry env) env.poll) := by
  rw [main_eq]
  simp [hg.1, hg.2.1, hg.2.2]

/-- The run of `main` when the loop is left in the iteration that follows `pre`. -/
theorem main_exit_at (h : Header) (env : Env) (pre post : List IterEnv) (it : IterEnv)
    (st : LoopState) (hg : setup_ok env) (hpoll : env.poll = pre ++ it :: post)
    (hrun : (poll_loop h (loop_entry env) pre).out = LoopOut.running st)
    (hexit : (loop_body h st it).brk = true ∨ (loop_body h st it).st.rslt ≠ BMI2_OK) :
    main h env =
      main_exit (trace_entry h env ++ ((poll_loop h (loop_entry env) pre).trace ++
        (loop_body h st it).trace)) (loop_body h st it).st.rslt := by
  rw [main_of_setup_ok h env hg, hpoll, poll_loop_append_running h _ pre _ st hrun,
    poll_loop_exit_now h st it post hexit]
  rfl

/-- The trace of `main` contains the events of the iteration that follows `pre`. -/
theorem main_trace_iter (h : Header) (env : Env) (pre post : List IterEnv) (it : IterEnv)
    (st : LoopState) (hg : setup_ok env) (hpoll : env.poll = pre ++ it :: post)
    (hrun : (poll_loop h (loop_entry env) pre).out = LoopOut.running st) :
    ∃ tl, (main h env).trace =
      trace_entry h env ++ (poll_loop h (loop_entry env) pre).trace ++
        (loop_body h st it).trace ++ tl := by
  rw [main_of_setup_ok h env hg, hpoll, poll_loop_append_running h _ pre _ st hrun]
  have hsplit : ∃ tl, (poll_loop h st (it :: post)).trace = (loop_body h st it).trace ++ tl := by
    unfold poll_loop
    simp only []
    split_ifs
    · exact ⟨[], by simp⟩
    · exact ⟨_, rfl⟩
    · exact ⟨[], by simp⟩
  obtain ⟨tl, htl⟩ := hsplit
  rcases main_after_loop_trace (trace_entry h env)
    ⟨(poll_loop h (loop_entry env) pre).trace ++ (poll_loop h st (it :: post)).trace,
      (poll_loop h st (it :: post)).out⟩ with hr | hr
  · exact ⟨tl, by rw [hr]; simp only [htl, List.append_assoc]⟩
  · exact ⟨tl ++ [Event.bmi2_coines_deinit], by
      rw [hr]; simp only [htl, List.append_assoc]⟩

theorem loop_body_motion (h : Header) (st : LoopState) (it : IterEnv)
    (hflag : flag_at_test st it = 1)
    (hbit : (it.int_status % 65536) &&& h.BMI270_SIG_MOT_STATUS_MASK ≠ 0) :
    loop_body h st it =
      ⟨isr_events it.isr_before_test ++ [Event.read_interrupt_status 1] ++
        isr_events it.isr_before_clear ++ [Event.write_interrupt_status 0] ++
        isr_events it.isr_before_query ++ [Event.bmi2_get_int_status_call] ++
        isr_events it.isr_during_query ++
        [Event.bmi2_get_int_status_ret (it.int_status % 65536) it.get_int_status_rslt,
          Event.bmi2_error_codes_print_result it.get_int_status_rslt] ++
        [Event.printf MSG_SIG_MOTION],
       ⟨run_isr it.isr_during_query (run_isr it.isr_before_query 0),
         it.get_int_status_rslt, it.int_status % 65536⟩, true⟩ := by
  unfold flag_at_test at hflag
  unfold loop_body
  simp only [hflag, if_true]
  rw [if_pos hbit]

theorem loop_body_no_motion (h : Header) (st : LoopState) (it : IterEnv)
    (hflag : flag_at_test st it = 1)
    (hbit : (it.int_status % 65536) &&& h.BMI270_SIG_MOT_STATUS_MASK = 0) :
    loop_body h st it =
      ⟨isr_events it.isr_before_test ++ [Event.read_interrupt_status 1] ++
        isr_events it.isr_before_clear ++ [Event.write_interrupt_status 0] ++
        isr_events it.isr_before_query ++ [Event.bmi2_get_int_status_call] ++
        isr_events it.isr_during_query ++
        [Event.bmi2_get_int_status_ret (it.int_status % 65536) it.get_int_status_rslt,
          Event.bmi2_error_codes_print_result it.get_int_status_rslt] ++
        isr_events it.isr_after,
       ⟨run_isr it.isr_after (run_isr it.isr_during_query (run_isr it.isr_before_query 0)),
         it.get_int_status_rslt, it.int_status % 65536⟩, false⟩ := by
  unfold flag_at_test at hflag
  unfold loop_body
  simp only [hflag, if_true]
  rw [if_neg (not_not.2 hbit)]

theorem loop_body_idle (h : Header) (st : LoopState) (it : IterEnv)
    (hflag : flag_at_test st it ≠ 1) :
    loop_body h st it =
      ⟨isr_events it.isr_before_test ++ [Event.read_interrupt_status (flag_at_test st it)] ++
        isr_events it.isr_after,
       ⟨run_isr it.isr_after (flag_at_test st it), st.rslt, st.int_status⟩, false⟩ := by
  unfold flag_at_test at hflag ⊢
  unfold loop_body
  simp only []
  rw [if_neg hflag]

/-! ## Claims on one iteration of the poll loop -/

/-- C3, as stated, fails: in the second iteration of this run the flag is 1 at the test and
`bmi2_get_int_status` reports an `int_status` with the significant-motion bit set, but it
returns the error -2; the loop ends in that iteration and `main` returns -2, which is not
`BMI2_OK`. -/
theorem c3_counterexample :
    setup_ok env_motion_error ∧
    env_motion_error.poll = [idle_iter] ++ fired_iter 1 254 :: [idle_iter] ∧
    (poll_loop bmi270_header (loop_entry env_motion_error) [idle_iter]).out =
      LoopOut.running ⟨0, 0, 0⟩ ∧
    flag_at_test ⟨0, 0, 0⟩ (fired_iter 1 254) = 1 ∧
    ((fired_iter 1 254).int_status % 65536) &&&
      bmi270_header.BMI270_SIG_MOT_STATUS_MASK ≠ 0 ∧
    (main bmi270_header env_motion_error).ret = some (-2) ∧
    (main bmi270_header env_motion_error).ret ≠ some (sign_extend BMI2_OK) := by
  decide

/-- C3, amended: take a run of `main` that reaches the poll loop and an iteration of the
loop (the one after the iterations `pre`, entered in state `st`) in which the flag is 1 at
the test and `bmi2_get_int_status` reports an `int_status` with the
`BMI270_SIG_MOT_STATUS_MASK` bit set. Then the loop ends in that iteration: the run is the
one obtained when nothing follows that iteration, its last events are the return of the
status read, the print of its status, the message and `bmi2_coines_deinit`; and `main`
returns the status that this call of `bmi2_get_int_status` returned, which is 0 when the
call returned `BMI2_OK`. -/
theorem c3_motion_ends_loop (h : Header) (env : Env) (pre post : List IterEnv)
    (it : IterEnv) (st : LoopState)
    (hg : setup_ok env) (hpoll : env.poll = pre ++ it :: post)
    (hrun : (poll_loop h (loop_entry env) pre).out = LoopOut.running st)
    (hflag : flag_at_test st it = 1)
    (hbit : (it.int_status % 65536) &&& h.BMI270_SIG_MOT_STATUS_MASK ≠ 0) :
    (main h env).ret = some (sign_extend it.get_int_status_rslt) ∧
    (it.get_int_status_rslt = BMI2_OK → (main h env).ret = some 0) ∧
    main h env = main h (with_poll env (pre ++ [it])) ∧
    ∃ tr, (main h env).trace = tr ++
      [Event.bmi2_get_int_status_ret (it.int_status % 65536) it.get_int_status_rslt,
       Event.bmi2_error_codes_print_result it.get_int_status_rslt,
       Event.printf MSG_SIG_MOTION, Event.bmi2_coines_deinit] := by
  have hbrk : (loop_body h st it).brk = true := by
    rw [loop_body_motion h st it hflag hbit]
  have hmain := main_exit_at h env pre post it st hg hpoll hrun (Or.inl hbrk)
  have hmain' := main_exit_at h (with_poll env (pre ++ [it])) pre [] it st hg rfl hrun
    (Or.inl hbrk)
  have hret : (main h env).ret = some (sign_extend it.get_int_status_rslt) := by
    rw [hmain, loop_body_motion h st it hflag hbit]
    rfl
  refine ⟨hret, ?_, ?_, ?_⟩
  · intro hok
    rw [hret, (sign_extend_eq_zero _).2 hok]
  · rw [hmain, hmain']
    rfl
  · rw [hmain, loop_body_motion h st it hflag hbit]
    refine ⟨trace_entry h env ++ ((poll_loop h (loop_entry env) pre).trace ++
      (isr_events it.isr_before_test ++ [Event.read_interrupt_status 1] ++
        isr_events it.isr_before_clear ++ [Event.write_interrupt_status 0] ++
        isr_events it.isr_before_query ++ [Event.bmi2_get_int_status_call] ++
        isr_events it.isr_during_query)), ?_⟩
    simp [main_exit, List.append_assoc]

/-- C3 amended, on a concrete run: the interrupt fires in the second iteration and the status read
succeeds with the motion bit set; `main` returns 0. -/
theorem c3_motion_ends_loop_witness :
    (setup_ok env_motion ∧ env_motion.poll = [idle_iter] ++ fired_iter 1 0 :: [idle_iter] ∧
      (poll_loop bmi270_header (loop_entry env_motion) [idle_iter]).out =
        LoopOut.running ⟨0, 0, 0⟩ ∧
      flag_at_test ⟨0, 0, 0⟩ (fired_iter 1 0) = 1) ∧
    (main bmi270_header env_motion).ret = some (sign_extend (fired_iter 1 0).get_int_status_rslt) ∧
    main bmi270_header env_motion =
      main bmi270_header (with_poll env_motion ([idle_iter] ++ [fired_iter 1 0])) :=
  ⟨by decide,
   (c3_motion_ends_loop bmi270_header env_motion [idle_iter] [idle_iter] (fired_iter 1 0)
      ⟨0, 0, 0⟩ (by decide) (by decide) (by decide) (by decide) (by decide)).1,
   (c3_motion_ends_loop bmi270_header env_motion [idle_iter] [idle_iter] (fired_iter 1 0)
      ⟨0, 0, 0⟩ (by decide) (by decide) (by decide) (by decide) (by decide)).2.2.1⟩

/-- C4: take a run of `main` that reaches the poll loop and an iteration of the loop (the
one after the iterations `pre`, entered in state `st`) in which the flag is 1 at the test
and `bmi2_get_int_status` reports an `int_status` with the `BMI270_SIG_MOT_STATUS_MASK` bit
clear. Then the events of that iteration are in the trace of `main`, among them the write
`interrupt_status = 0`, and the flag at the end of the iteration is 0 unless the callback ran
after that write; the loop goes on to another iteration if and only if the status read
returned `BMI2_OK`; and when it returned another status the loop ends there (the run is the
one obtained when nothing follows that iteration) and `main` returns that status. -/
theorem c4_no_motion_continues (h : Header) (env : Env) (pre post : List IterEnv)
    (it : IterEnv) (st : LoopState)
    (hg : setup_ok env) (hpoll : env.poll = pre ++ it :: post)
    (hrun : (poll_loop h (loop_entry env) pre).out = LoopOut.running st)
    (hflag : flag_at_test st it = 1)
    (hbit : (it.int_status % 65536) &&& h.BMI270_SIG_MOT_STATUS_MASK = 0) :
    (∃ tl, (main h env).trace =
      trace_entry h env ++ (poll_loop h (loop_entry env) pre).trace ++
        (loop_body h st it).trace ++ tl) ∧
    Event.write_interrupt_status 0 ∈ (loop_body h st it).trace ∧
    (loop_body h st it).st.interrupt_status =
      run_isr (it.isr_before_query ++ it.isr_during_query ++ it.isr_after) 0 ∧
    ((∃ st', (poll_loop h (loop_entry env) (pre ++ [it])).out = LoopOut.running st') ↔
      it.get_int_status_rslt = BMI2_OK) ∧
    (it.get_int_status_rslt ≠ BMI2_OK →
      (main h env).ret = some (sign_extend it.get_int_status_rslt) ∧
      main h env = main h (with_poll env (pre ++ [it]))) := by
  have hbody := loop_body_no_motion h st it hflag hbit
  refine ⟨main_trace_iter h env pre post it st hg hpoll hrun, ?_, ?_, ?_, ?_⟩
  · rw [hbody]; simp
  · rw [hbody]; simp [run_isr_append]
  · rw [poll_loop_append_running h [it] pre _ st hrun]
    simp only []
    by_cases hok : it.get_int_status_rslt = BMI2_OK
    · rw [poll_loop_continue h st it [] (by rw [hbody]) (by rw [hbody]; exact hok)]
      simp [poll_loop, hok]
    · rw [poll_loop_exit_now h st it [] (Or.inr (by rw [hbody]; exact hok))]
      simp [hok]
  · intro hne
    have hexit : (loop_body h st it).brk = true ∨ (loop_body h st it).st.rslt ≠ BMI2_OK :=
      Or.inr (by rw [hbody]; exact hne)
    have hmain := main_exit_at h env pre post it st hg hpoll hrun hexit
    have hmain' := main_exit_at h (with_poll env (pre ++ [it])) pre [] it st hg rfl hrun hexit
    refine ⟨?_, ?_⟩
    · rw [hmain, hbody]; rfl
    · rw [hmain, hmain']; rfl

/-- C4 on a concrete run: the second status read returns -2 with the motion bit clear. -/
theorem c4_no_motion_continues_witness :
    (setup_ok env_read_fails ∧
      env_read_fails.poll = [fired_iter 0 0] ++ fired_iter 0 254 :: [idle_iter] ∧
      (poll_loop bmi270_header (loop_entry env_read_fails) [fired_iter 0 0]).out =
        LoopOut.running ⟨0, 0, 0⟩ ∧
      flag_at_test ⟨0, 0, 0⟩ (fired_iter 0 254) = 1 ∧
      (fired_iter 0 254).get_int_status_rslt ≠ BMI2_OK) ∧
    (main bmi270_header env_read_fails).ret = some (-2) :=
  ⟨by decide,
   ((c4_no_motion_continues bmi270_header env_read_fails [fired_iter 0 0] [idle_iter]
      (fired_iter 0 254) ⟨0, 0, 0⟩ (by decide) (by decide) (by decide) (by decide)
      (by decide)).2.2.2.2 (by decide)).1⟩

/-! ## The poll loop without interrupt -/

theorem loop_body_read_mem (h : Header) (st : LoopState) (it : IterEnv) :
    Event.read_interrupt_status (flag_at_test st it) ∈ (loop_body h st it).trace := by
  unfold flag_at_test loop_body
  simp only []
  split_ifs <;> simp

theorem poll_loop_trace_cons (h : Header) (st : LoopState) (it : IterEnv)
    (rest : List IterEnv) :
    ∃ tl, (poll_loop h st (it :: rest)).trace = (loop_body h st it).trace ++ tl := by
  unfold poll_loop
  simp only []
  split_ifs
  · exact ⟨[], by simp⟩
  · exact ⟨_, rfl⟩
  · exact ⟨[], by simp⟩

theorem isr_events_countP_read (ps : List (Nat × Nat)) :
    (isr_events ps).countP Event.isFlagRead = 0 := by
  rw [List.countP_eq_zero]
  intro e he
  unfold isr_events at he
  obtain ⟨p, _, rfl⟩ := List.mem_map.1 he
  simp [Event.isFlagRead]

theorem call_not_mem_isr_events (ps : List (Nat × Nat)) :
    Event.bmi2_get_int_status_call ∉ isr_events ps := by
  intro he
  unfold isr_events at he
  obtain ⟨p, _, hp⟩ := List.mem_map.1 he
  simp at hp

/-- With the flag never seen set, a loop whose `rslt` is `BMI2_OK` runs every iteration it
is given, reads no status, and is still running. -/
theorem poll_loop_silent_ok (h : Header) :
    ∀ (its : List IterEnv) (st : LoopState), st.rslt = BMI2_OK →
      (∀ v, Event.read_interrupt_status v ∈ (poll_loop h st its).trace → v = 0) →
      (∃ st', (poll_loop h st its).out = LoopOut.running st') ∧
      Event.bmi2_get_int_status_call ∉ (poll_loop h st its).trace ∧
      (poll_loop h st its).trace.countP Event.isFlagRead = its.length := by
  intro its
  induction its with
  | nil =>
    intro st _ _
    exact ⟨⟨st, rfl⟩, by simp [poll_loop], by simp [poll_loop]⟩
  | cons it rest ih =>
    intro st hok hzero
    have hflag0 : flag_at_test st it = 0 := by
      obtain ⟨tl, htl⟩ := poll_loop_trace_cons h st it rest
      apply hzero
      rw [htl]
      exact List.mem_append_left _ (loop_body_read_mem h st it)
    have hbody := loop_body_idle h st it (by rw [hflag0]; decide)
    have hb : (loop_body h st it).brk = false := by rw [hbody]
    have hr : (loop_body h st it).st.rslt = BMI2_OK := by rw [hbody]; exact hok
    rw [poll_loop_continue h st it rest hb hr] at hzero ⊢
    simp only [] at hzero ⊢
    obtain ⟨hrun, hcall, hcount⟩ := ih (loop_body h st it).st hr
      (fun v hv => hzero v (List.mem_append_right _ hv))
    refine ⟨hrun, ?_, ?_⟩
    · intro hmem
      rcases List.mem_append.1 hmem with hm | hm
      · rw [hbody] at hm
        simp only [List.mem_append, List.mem_singleton] at hm
        rcases hm with (hm | hm) | hm
        · exact call_not_mem_isr_events _ hm
        · simp at hm
        · exact call_not_mem_isr_events _ hm
      · exact hcall hm
    · rw [List.countP_append, hcount, hbody]
      simp [List.countP_append, isr_events_countP_read, List.countP_cons, Event.isFlagRead]
      omega

/-- With the flag not set at the first test, a loop whose `rslt` is not `BMI2_OK` ends after
one iteration. -/
theorem poll_loop_silent_fail (h : Header) (it : IterEnv) (rest : List IterEnv)
    (st : LoopState) (hne : st.rslt ≠ BMI2_OK)
    (hzero : ∀ v, Event.read_interrupt_status v ∈ (poll_loop h st (it :: rest)).trace →
      v = 0) :
    poll_loop h st (it :: rest) =
      ⟨isr_events it.isr_before_test ++ [Event.read_interrupt_status 0] ++
        isr_events it.isr_after,
       LoopOut.exited ⟨run_isr it.isr_after 0, st.rslt, st.int_status⟩⟩ := by
  have hflag0 : flag_at_test st it = 0 := by
    obtain ⟨tl, htl⟩ := poll_loop_trace_cons h st it rest
    apply hzero
    rw [htl]
    exact List.mem_append_left _ (loop_body_read_mem h st it)
  have hbody := loop_body_idle h st it (by rw [hflag0]; decide)
  rw [poll_loop_exit_now h st it rest (Or.inr (by rw [hbody]; exact hne)), hbody, hflag0]

theorem trace_entry_countP_read (h : Header) (env : Env) :
    (trace_entry h env).countP Event.isFlagRead = 0 := by
  rw [List.countP_eq_zero]
  intro e he hread
  have hany : (trace_entry h env).any Event.isFlagRead = true :=
    List.any_eq_true.2 ⟨e, he, hread⟩
  revert hany
  simp [trace_entry, trace_first, trace_enable, trace_pin, trace_map, List.any_append,
    Event.isFlagRead, trace_attach_any_read]

theorem call_not_mem_entry (h : Header) (env : Env) :
    Event.bmi2_get_int_status_call ∉ trace_entry h env := by
  intro he
  unfold trace_entry trace_map at he
  simp only [List.mem_append] at he
  rcases he with ((he | he) | he) | (he | he) | he
  · simp [trace_first] at he
  · simp [trace_enable] at he
  · simp [trace_pin] at he
  · simp at he
  · exact absurd (trace_attach_mem h env _ he) (by simp [Event.isAttach])
  · simp at he

/-! ## Claim on the loop without interrupt -/

theorem poll_loop_replicate_silent (h : Header) (st : LoopState) (it : IterEnv)
    (hst : st.interrupt_status = 0) (hok : st.rslt = BMI2_OK)
    (hbefore : it.isr_before_test = []) (hafter : it.isr_after = []) :
    ∀ n : Nat, (poll_loop h st (List.replicate n it)).out = LoopOut.running st ∧
      Event.bmi2_get_int_status_call ∉ (poll_loop h st (List.replicate n it)).trace := by
  have hflag0 : flag_at_test st it = 0 := by
    unfold flag_at_test
    rw [hbefore, hst]
    rfl
  have hbody := loop_body_idle h st it (by rw [hflag0]; decide)
  rw [hflag0, hbefore, hafter] at hbody
  have hst' : (loop_body h st it).st = st := by
    rw [hbody]
    cases st
    simp only [run_isr_nil] at hst ⊢
    simp [hst]
  intro n
  induction n with
  | zero => exact ⟨rfl, by simp [poll_loop]⟩
  | succ n ih =>
    rw [List.replicate_succ,
      poll_loop_continue h st it _ (by rw [hbody]) (by rw [hbody]; exact hok), hst']
    refine ⟨ih.1, ?_⟩
    simp only [List.mem_append, not_or]
    refine ⟨?_, ih.2⟩
    rw [hbody]
    simp [isr_events]

/-- C7, as stated, fails: in this run the setup succeeds, the flag is 0 at every test, and
from the second iteration on the driver is forced to fail (every call of
`bmi2_get_int_status` would return -2). The loop does not exit on that failure: the status
read is never called, the three iterations are run and `main` has not returned, so it
returns no error code; and the same holds however many such iterations follow. -/
theorem c7_counterexample :
    setup_ok env_forced_error ∧
    (∀ e ∈ (main bmi270_header env_forced_error).trace,
      Event.isFlagRead e = true → e = Event.read_interrupt_status 0) ∧
    failing_idle_iter.get_int_status_rslt ≠ BMI2_OK ∧
    (main bmi270_header env_forced_error).trace.countP Event.isFlagRead = 3 ∧
    Event.bmi2_get_int_status_call ∉ (main bmi270_header env_forced_error).trace ∧
    (main bmi270_header env_forced_error).ret = none ∧
    (main bmi270_header env_forced_error).ret ≠
      some (sign_extend failing_idle_iter.get_int_status_rslt) ∧
    ∀ n : Nat,
      (main bmi270_header (with_poll env_ok (List.replicate n failing_idle_iter))).ret =
        none ∧
      Event.bmi2_get_int_status_call ∉
        (main bmi270_header (with_poll env_ok (List.replicate n failing_idle_iter))).trace := by
  refine ⟨by decide, by decide, by decide, by decide, by decide, by decide, by decide, ?_⟩
  intro n
  have hrep := poll_loop_replicate_silent bmi270_header (loop_entry env_ok)
    failing_idle_iter rfl rfl rfl rfl n
  have hmain := main_of_setup_ok bmi270_header
    (with_poll env_ok (List.replicate n failing_idle_iter)) ⟨rfl, rfl, rfl⟩
  have hpoll : (with_poll env_ok (List.replicate n failing_idle_iter)).poll =
      List.replicate n failing_idle_iter := rfl
  have hentry : loop_entry (with_poll env_ok (List.replicate n failing_idle_iter)) =
      loop_entry env_ok := rfl
  rw [hmain, hpoll, hentry, main_after_loop_running _ _ _ hrep.1]
  refine ⟨rfl, ?_⟩
  simp only [List.mem_append, not_or]
  exact ⟨call_not_mem_entry _ _, hrep.2⟩

/-- C7, amended: take a run of `main` that reaches the poll loop and in which the flag is 0
at every test. Then the loop makes no driver call (`bmi2_get_int_status` is never called), so
no driver failure can occur in the loop or end it: when `bmi270_map_feat_int`, the last
driver call before the loop, returned `BMI2_OK`, the loop keeps running, every iteration
given is run and `main` has not returned; only when `bmi270_map_feat_int` returned another
status does the loop exit, at its first test of the loop condition, and `main` returns that
error status. -/
theorem c7_no_interrupt (h : Header) (env : Env) (hg : setup_ok env)
    (hzero : ∀ v, Event.read_interrupt_status v ∈ (main h env).trace → v = 0) :
    Event.bmi2_get_int_status_call ∉ (main h env).trace ∧
    (env.map_feat_int_rslt = BMI2_OK →
      (main h env).ret = none ∧
      (main h env).trace.countP Event.isFlagRead = env.poll.length) ∧
    (env.map_feat_int_rslt ≠ BMI2_OK → env.poll ≠ [] →
      (main h env).ret = some (sign_extend env.map_feat_int_rslt) ∧
      (main h env).trace.countP Event.isFlagRead = 1) := by
  have hmain := main_of_setup_ok h env hg
  have hzero' : ∀ v, Event.read_interrupt_status v ∈
      (poll_loop h (loop_entry env) env.poll).trace → v = 0 := by
    intro v hv
    apply hzero
    rw [hmain]
    rcases main_after_loop_trace (trace_entry h env)
      (poll_loop h (loop_entry env) env.poll) with hr | hr <;> rw [hr] <;> simp [hv]
  by_cases hok : env.map_feat_int_rslt = BMI2_OK
  · obtain ⟨⟨st', hrun⟩, hcall, hcount⟩ :=
      poll_loop_silent_ok h env.poll (loop_entry env) hok hzero'
    rw [hmain, main_after_loop_running _ _ st' hrun]
    refine ⟨?_, fun _ => ⟨rfl, ?_⟩, fun hne => absurd hok hne⟩
    · simp only [List.mem_append, not_or]
      exact ⟨call_not_mem_entry h env, hcall⟩
    · simp only [List.countP_append, trace_entry_countP_read, hcount, Nat.zero_add]
  · cases hp : env.poll with
    | nil =>
      rw [hmain, hp]
      refine ⟨?_, fun hk => absurd hk hok, fun _ hnil => absurd rfl hnil⟩
      simp only [poll_loop, main_after_loop, List.append_nil]
      exact call_not_mem_entry h env
    | cons it rest =>
      rw [hp] at hzero'
      have hloop := poll_loop_silent_fail h it rest (loop_entry env) hok hzero'
      rw [hmain, hp, main_after_loop_exited _ _ _ (by rw [hloop]), hloop]
      refine ⟨?_, fun hk => absurd hk hok, fun _ _ => ⟨rfl, ?_⟩⟩
      · simp only [main_exit, List.mem_append, List.mem_singleton, not_or]
        refine ⟨⟨call_not_mem_entry h env, ⟨⟨call_not_mem_isr_events _, by simp⟩,
          call_not_mem_isr_events _⟩⟩, by simp⟩
      · simp [main_exit, List.countP_append, trace_entry_countP_read,
          isr_events_countP_read, List.countP_cons, Event.isFlagRead]

/-- C7 amended, on two concrete runs without interrupt: when `bmi270_map_feat_int` returns -2 the
loop exits after one test and `main` returns -2; when it returns `BMI2_OK` the three
iterations given are run and `main` has not returned. -/
theorem c7_no_interrupt_witness :
    (setup_ok env_map_fails ∧ env_map_fails.map_feat_int_rslt ≠ BMI2_OK ∧
      env_map_fails.poll ≠ []) ∧
    ((main bmi270_header env_map_fails).ret = some (-2) ∧
      (main bmi270_header env_map_fails).trace.countP Event.isFlagRead = 1) ∧
    (setup_ok env_silent ∧ env_silent.map_feat_int_rslt = BMI2_OK) ∧
    ((main bmi270_header env_silent).ret = none ∧
      (main bmi270_header env_silent).trace.countP Event.isFlagRead = 3) :=
  ⟨by decide,
   (c7_no_interrupt bmi270_header env_map_fails (by decide)
      (by
        intro v hv
        have hmem : Event.read_interrupt_status v ∈
            [Event.read_interrupt_status 0] := by
          have hsub : ∀ e ∈ (main bmi270_header env_map_fails).trace,
              Event.isFlagRead e = true → e ∈ [Event.read_interrupt_status 0] := by decide
          exact hsub _ hv rfl
        simpa using hmem)).2.2 (by decide) (by decide),
   by decide,
   (c7_no_interrupt bmi270_header env_silent (by decide)
      (by
        intro v hv
        have hmem : Event.read_interrupt_status v ∈
            [Event.read_interrupt_status 0] := by
          have hsub : ∀ e ∈ (main bmi270_header env_silent).trace,
              Event.isFlagRead e = true → e ∈ [Event.read_interrupt_status 0] := by decide
          exact hsub _ hv rfl
        simpa using hmem)).2.1 (by decide)⟩

/-! ## Claim on the order of the clear and the status query -/

theorem isr_events_any_write (ps : List (Nat × Nat)) :
    (isr_events ps).any Event.isFlagWrite = false := by
  rw [List.any_eq_false]
  intro e he
  unfold isr_events at he
  obtain ⟨p, _, rfl⟩ := List.mem_map.1 he
  simp [Event.isFlagWrite]

theorem flag_at_test_of_call (h : Header) (st : LoopState) (it : IterEnv)
    (hq : Event.bmi2_get_int_status_call ∈ (loop_body h st it).trace) :
    flag_at_test st it = 1 := by
  by_contra hne
  rw [loop_body_idle h st it hne] at hq
  simp only [List.mem_append, List.mem_singleton] at hq
  rcases hq with (hq | hq) | hq
  · exact call_not_mem_isr_events _ hq
  · simp at hq
  · exact call_not_mem_isr_events _ hq

theorem loop_body_call_mem (h : Header) (st : LoopState) (it : IterEnv)
    (hflag : flag_at_test st it = 1) :
    Event.bmi2_get_int_status_call ∈ (loop_body h st it).trace := by
  unfold flag_at_test at hflag
  unfold loop_body
  simp only [hflag, if_true]
  split_ifs <;> simp

theorem loop_body_order (h : Header) (st : LoopState) (it : IterEnv)
    (hflag : flag_at_test st it = 1) :
    ∃ a c, (loop_body h st it).trace =
        a ++ [Event.write_interrupt_status 0] ++ isr_events it.isr_before_query ++
          [Event.bmi2_get_int_status_call] ++ c ∧
      a.any Event.isFlagWrite = false ∧ c.any Event.isFlagWrite = false ∧
      Event.bmi2_get_int_status_call ∉ a ∧ Event.bmi2_get_int_status_call ∉ c := by
  by_cases hbit : (it.int_status % 65536) &&& h.BMI270_SIG_MOT_STATUS_MASK = 0
  · rw [loop_body_no_motion h st it hflag hbit]
    refine ⟨isr_events it.isr_before_test ++ [Event.read_interrupt_status 1] ++
        isr_events it.isr_before_clear,
      isr_events it.isr_during_query ++
        [Event.bmi2_get_int_status_ret (it.int_status % 65536) it.get_int_status_rslt,
          Event.bmi2_error_codes_print_result it.get_int_status_rslt] ++
        isr_events it.isr_after, ?_, ?_, ?_, ?_, ?_⟩
    · simp only [List.append_assoc]
    · simp [List.any_append, isr_events_any_write, Event.isFlagWrite]
    · simp [List.any_append, isr_events_any_write, Event.isFlagWrite]
    · simp [call_not_mem_isr_events]
    · simp [call_not_mem_isr_events]
  · rw [loop_body_motion h st it hflag hbit]
    refine ⟨isr_events it.isr_before_test ++ [Event.read_interrupt_status 1] ++
        isr_events it.isr_before_clear,
      isr_events it.isr_during_query ++
        [Event.bmi2_get_int_status_ret (it.int_status % 65536) it.get_int_status_rslt,
          Event.bmi2_error_codes_print_result it.get_int_status_rslt] ++
        [Event.printf MSG_SIG_MOTION], ?_, ?_, ?_, ?_, ?_⟩
    · simp only [List.append_assoc]
    · simp [List.any_append, isr_events_any_write, Event.isFlagWrite]
    · simp [List.any_append, isr_events_any_write, Event.isFlagWrite]
    · simp [call_not_mem_isr_events]
    · simp [call_not_mem_isr_events]

theorem loop_body_flag_after (h : Header) (st : LoopState) (it : IterEnv)
    (hflag : flag_at_test st it = 1) (hb : (loop_body h st it).brk = false) :
    (loop_body h st it).st.interrupt_status =
      run_isr (it.isr_before_query ++ it.isr_during_query ++ it.isr_after) 0 := by
  by_cases hbit : (it.int_status % 65536) &&& h.BMI270_SIG_MOT_STATUS_MASK = 0
  · rw [loop_body_no_motion h st it hflag hbit]
    simp [run_isr_append]
  · rw [loop_body_motion h st it hflag hbit] at hb
    simp at hb

/-- C9: take a run of `main` that reaches the poll loop and an iteration of the loop (the
one after the iterations `pre`, entered in state `st`) that issues `bmi2_get_int_status`.
Its events are in the trace of `main` and are ordered so: the write `interrupt_status = 0`,
then only runs of `interrupt_callback`, then the call of the status query; the main flow
writes the flag nowhere else in that iteration, and the query is issued once. The callback,
whatever its two parameters, sets the flag to 1. Hence, when the loop has not exited in that
iteration and the callback ran at some point after the clear (before the query, during it,
after it, or before the next test), the flag is 1 at the next test and the next iteration
issues another status query, whose events follow in the trace of `main`. -/
theorem c9_clear_before_query (h : Header) (env : Env) (pre post : List IterEnv)
    (it next : IterEnv) (st : LoopState)
    (hg : setup_ok env) (hpoll : env.poll = pre ++ it :: next :: post)
    (hrun : (poll_loop h (loop_entry env) pre).out = LoopOut.running st)
    (hq : Event.bmi2_get_int_status_call ∈ (loop_body h st it).trace) :
    (∃ tl, (main h env).trace =
      trace_entry h env ++ (poll_loop h (loop_entry env) pre).trace ++
        (loop_body h st it).trace ++ tl) ∧
    (∃ a c, (loop_body h st it).trace =
        a ++ [Event.write_interrupt_status 0] ++ isr_events it.isr_before_query ++
          [Event.bmi2_get_int_status_call] ++ c ∧
      a.any Event.isFlagWrite = false ∧ c.any Event.isFlagWrite = false ∧
      Event.bmi2_get_int_status_call ∉ a ∧ Event.bmi2_get_int_status_call ∉ c) ∧
    (∀ e ∈ isr_events it.isr_before_query, Event.isCallback e = true) ∧
    (∀ param1 param2 flag, interrupt_callback param1 param2 flag = 1) ∧
    ((loop_body h st it).brk = false ∧ (loop_body h st it).st.rslt = BMI2_OK →
      it.isr_before_query ++ it.isr_during_query ++ it.isr_after ++
        next.isr_before_test ≠ [] →
      flag_at_test (loop_body h st it).st next = 1 ∧
      Event.bmi2_get_int_status_call ∈ (loop_body h (loop_body h st it).st next).trace ∧
      ∃ tl, (main h env).trace =
        trace_entry h env ++ (poll_loop h (loop_entry env) (pre ++ [it])).trace ++
          (loop_body h (loop_body h st it).st next).trace ++ tl) := by
  have hflag := flag_at_test_of_call h st it hq
  refine ⟨main_trace_iter h env pre (next :: post) it st hg hpoll hrun,
    loop_body_order h st it hflag, isr_events_callback _, fun _ _ _ => rfl, ?_⟩
  intro hcont hisr
  have hnext : flag_at_test (loop_body h st it).st next = 1 := by
    unfold flag_at_test
    rw [loop_body_flag_after h st it hflag hcont.1, ← run_isr_append]
    exact run_isr_of_ne_nil _ _ hisr
  refine ⟨hnext, loop_body_call_mem h _ next hnext, ?_⟩
  have hrun' : (poll_loop h (loop_entry env) (pre ++ [it])).out =
      LoopOut.running (loop_body h st it).st := by
    rw [poll_loop_append_running h [it] pre _ st hrun,
      poll_loop_continue h st it [] hcont.1 hcont.2]
    rfl
  exact main_trace_iter h env (pre ++ [it]) post next _ hg
    (by rw [hpoll]; simp) hrun'

/-- C9 on a concrete run: the interrupt fires again while the first status read runs; the second
iteration finds the flag set and reads the status again. -/
theorem c9_clear_before_query_witness :
    (setup_ok env_refired ∧
      env_refired.poll = [] ++ refired_iter :: idle_iter :: [idle_iter] ∧
      Event.bmi2_get_int_status_call ∈
        (loop_body bmi270_header (loop_entry env_refired) refired_iter).trace ∧
      refired_iter.isr_before_query ++ refired_iter.isr_during_query ++
        refired_iter.isr_after ++ idle_iter.isr_before_test ≠ []) ∧
    flag_at_test (loop_body bmi270_header (loop_entry env_refired) refired_iter).st
      idle_iter = 1 ∧
    Event.bmi2_get_int_status_call ∈
      (loop_body bmi270_header
        (loop_body bmi270_header (loop_entry env_refired) refired_iter).st idle_iter).trace :=
  ⟨by decide,
   ((c9_clear_before_query bmi270_header env_refired [] [idle_iter] refired_iter idle_iter
      (loop_entry env_refired) (by decide) (by decide) (by decide) (by decide)).2.2.2.2
      (by decide) (by decide)).1,
   ((c9_clear_before_query bmi270_header env_refired [] [idle_iter] refired_iter idle_iter
      (loop_entry env_refired) (by decide) (by decide) (by decide) (by decide)).2.2.2.2
      (by decide) (by decide)).2.1⟩

end SigMotionHwInt
